import Mathlib

set_option maxHeartbeats 1000000
set_option maxRecDepth 4000

/-!
Verification development for the MockMCPServer repository.

The definitions below are a shallow embedding of the Python sources under
`src/`.  Pure Python functions become Lean functions; external collaborators
(DynamoDB, S3, the JS sandbox, `secrets`, `hashlib`, `time`) are passed in as
explicit function parameters, so every definition stays executable.
Python dicts are modelled as association lists with unique keys, maintained by
`dictInsert` (Python dict-assignment semantics), and parsed JSON documents
(the output domain of `json.loads`) are modelled by the inductive `JsonVal`.
-/

/- ---------------------------------------------------------------------
   Python primitive helpers
   --------------------------------------------------------------------- -/

/-- Single-quote character (ASCII 0x27) as a string; used to build the
Python f-string messages that quote values. -/
def squo : String := "\x27"

/-- Python dict lookup: first binding wins (inserts keep keys unique). -/
def dictGet {α : Type} : List (String × α) → String → Option α
  | [], _ => none
  | (k2, v) :: rest, k => if k2 = k then some v else dictGet rest k

/-- Python `key in dict`. -/
def dictHas {α : Type} (l : List (String × α)) (k : String) : Bool :=
  (dictGet l k).isSome

/-- Python dict assignment `d[k] = v`: replaces the value in place when the
key exists (keeping its original position), else appends the new binding. -/
def dictInsert {α : Type} (l : List (String × α)) (k : String) (v : α) :
    List (String × α) :=
  if dictHas l k then l.map (fun p => if p.1 = k then (k, v) else p)
  else l ++ [(k, v)]

/-- Python `dict.pop(k, default)` (dropping the returned value). -/
def dictRemove {α : Type} (l : List (String × α)) (k : String) :
    List (String × α) :=
  l.filter (fun p => p.1 != k)

/-- Python `str.lower()` (ASCII case folding suffices for the header names
used by the sources). -/
def pyLower (s : String) : String := String.mk (s.data.map Char.toLower)

/-- Whitespace recognised by Python `str.strip()` (the subset that occurs in
the generated docstrings). -/
def isPySpace (c : Char) : Bool := c = ' ' || c = '\t' || c = '\n' || c = '\r'

/-- Python `str.strip()`. -/
def pyStrip (s : String) : String :=
  String.mk (((s.data.dropWhile isPySpace).reverse.dropWhile isPySpace).reverse)

/-- Python `str.split(sep)` for a one-character separator, on char lists:
`"a//b".split("/") = ["a", "", "b"]` and `"".split("/") = [""]`. -/
def splitCharList (c : Char) : List Char → List (List Char)
  | [] => [[]]
  | x :: xs =>
    match splitCharList c xs with
    | [] => [[]]
    | h :: t => if x = c then [] :: h :: t else (x :: h) :: t

/-- Python `str.split(sep)` for a one-character separator. -/
def pySplit (c : Char) (s : String) : List String :=
  (splitCharList c s.data).map String.mk

/-- Python `sep.join(parts)`. -/
def joinWith (sep : String) : List String → String
  | [] => ""
  | [x] => x
  | x :: y :: xs => x ++ sep ++ joinWith sep (y :: xs)

/-- Python `str.startswith(p)`. -/
def pyStartswith (s p : String) : Bool := p.data.isPrefixOf s.data

/-- Python slice `s[:n]`. -/
def pyTake (n : Nat) (s : String) : String := String.mk (s.data.take n)

/-- Python `str.capitalize()`: first character uppercased, rest lowercased. -/
def pyCapitalize (s : String) : String :=
  match s.data with
  | [] => ""
  | c :: cs => String.mk (Char.toUpper c :: cs.map Char.toLower)

/-- The chunk of a string before the first blank-line separator, i.e. the
Python expression `doc.split("\n\n")[0]`. -/
def takeBeforeBlank : List Char → List Char
  | '\n' :: '\n' :: _ => []
  | c :: rest => c :: takeBeforeBlank rest
  | [] => []

/-- Python `line.split(":", 1)`: the parts before and after the first colon.
Callers guard on the colon being present (`":" in line`). -/
def splitColon1 : List Char → (List Char × List Char)
  | [] => ([], [])
  | ':' :: rest => ([], rest)
  | c :: rest =>
    let p := splitColon1 rest
    (c :: p.1, p.2)

/- ---------------------------------------------------------------------
   JSON values (the output domain of Python json.loads)
   --------------------------------------------------------------------- -/

/-- Parsed JSON documents as produced by Python `json.loads`.  JSON numbers
are modelled as integers: no fractional literal is produced or consumed by
any code path the claims touch. -/
inductive JsonVal where
  | null : JsonVal
  | bool (b : Bool) : JsonVal
  | num (n : Int) : JsonVal
  | str (s : String) : JsonVal
  | arr (xs : List JsonVal) : JsonVal
  | obj (kvs : List (String × JsonVal)) : JsonVal

/-- Escape one character as Python `json.dumps` does for the characters that
occur in this code base (quote and backslash). -/
def escapeJsonChar (c : Char) : List Char :=
  if c = '\\' then ['\\', '\\']
  else if c = '"' then ['\\', '"']
  else [c]

/-- Render a string literal as Python `json.dumps` does. -/
def jsonDumpsStr (s : String) : String :=
  "\"" ++ String.mk (s.data.flatMap escapeJsonChar) ++ "\""

mutual

/-- Python `json.dumps` with its default separators.  Only the result shape
matters to the sources (the protocol engine re-parses these strings); no
claim inspects the rendered text itself. -/
def jsonDumps : JsonVal → String
  | .null => "null"
  | .bool true => "true"
  | .bool false => "false"
  | .num n => toString n
  | .str s => jsonDumpsStr s
  | .arr xs => "[" ++ jsonDumpsItems xs ++ "]"
  | .obj kvs => "\x7b" ++ jsonDumpsFields kvs ++ "\x7d"

/-- Comma-separated rendering of array items. -/
def jsonDumpsItems : List JsonVal → String
  | [] => ""
  | [x] => jsonDumps x
  | x :: y :: xs => jsonDumps x ++ ", " ++ jsonDumpsItems (y :: xs)

/-- Comma-separated rendering of object fields. -/
def jsonDumpsFields : List (String × JsonVal) → String
  | [] => ""
  | [(k, v)] => jsonDumpsStr k ++ ": " ++ jsonDumps v
  | (k, v) :: q :: kvs =>
    jsonDumpsStr k ++ ": " ++ jsonDumps v ++ ", " ++ jsonDumpsFields (q :: kvs)

end

/-- Python `str()` of a parsed JSON value, used only inside diagnostic
messages (`f"Tool '{tool_name}' not found"`).  Containers are rendered in
JSON style, which is close enough to Python repr for the message strings no
claim inspects. -/
def pyStr : JsonVal → String
  | .null => "None"
  | .bool true => "True"
  | .bool false => "False"
  | .num n => toString n
  | .str s => s
  | .arr xs => "[" ++ jsonDumpsItems xs ++ "]"
  | .obj kvs => "\x7b" ++ jsonDumpsFields kvs ++ "\x7d"

/- ---------------------------------------------------------------------
   src/server/mcp_server/constants.py
   --------------------------------------------------------------------- -/

def DEFAULT_ID_LENGTH : Nat := 12
def SERVER_EXPIRY_SECONDS : Int := 24 * 60 * 60
def VALID_OUTPUT_TYPES : List String := ["text", "image", "custom"]
def DEFAULT_S3_BUCKET_NAME : String := "mockmcp-images"
def M2M_TOKEN_PREFIX : String := "mcp_m2m"
def M2M_TOKEN_DETERMINISTIC_LENGTH : Nat := 16

/- ---------------------------------------------------------------------
   src/server/mcp_server/models/server_models.py
   (pydantic models; construction-time validation is modelled by the
   `valid*` predicates below, applied wherever pydantic would validate)
   --------------------------------------------------------------------- -/

/-- `Output`: unified output model (`output_type`, `output_content`). -/
structure OutputR where
  output_type : String
  output_content : List (String × JsonVal)

/-- `ParameterDefinition`: type and description of one tool parameter. -/
structure ParameterDefinitionR where
  type : String
  description : String

/-- `ToolDefinition`: one tool of a server.  `parameters` is a Python dict
(name, insertion-ordered, unique keys). -/
structure ToolDefinitionR where
  name : String
  description : String
  output : OutputR
  parameters : List (String × ParameterDefinitionR)

/-- `MCPServerRequest`: a server-creation request body. -/
structure MCPServerRequestR where
  name : String
  description : String
  tools : List ToolDefinitionR

/-- The `validate_output_type` / `validate_output_content` validators of the
`Output` model. -/
def validOutput (o : OutputR) : Bool :=
  VALID_OUTPUT_TYPES.contains o.output_type &&
  (if o.output_type = "text" then
    match dictGet o.output_content "text" with
    | some (.str s) => pyStrip s != ""
    | _ => false
  else if o.output_type = "image" then
    match dictGet o.output_content "s3_key" with
    | some (.str s) => pyStrip s != ""
    | _ => false
  else if o.output_type = "custom" then
    dictHas o.output_content "flow_type" && dictHas o.output_content "configuration"
  else true)

/-- Field validation of `ParameterDefinition` (both fields `min_length=1`). -/
def validParameterDefinition (p : ParameterDefinitionR) : Bool :=
  p.type != "" && p.description != ""

/-- Field validation of `ToolDefinition`. -/
def validToolDefinition (t : ToolDefinitionR) : Bool :=
  t.name != "" && t.description != "" && validOutput t.output &&
  t.parameters.all (fun p => validParameterDefinition p.2)

/-- Field validation of `MCPServerRequest` (`tools` has `min_items=1`; note
no uniqueness constraint on tool names). -/
def validMCPServerRequest (r : MCPServerRequestR) : Bool :=
  r.name != "" && r.description != "" && !r.tools.isEmpty &&
  r.tools.all validToolDefinition

/- ---------------------------------------------------------------------
   src/server/mcp_server/utils/token_generator.py
   (`secrets.token_urlsafe` and `hashlib.sha256(...).hexdigest()` are
   external entropy / crypto: they are passed in as the `rand` string and
   the `hash` function)
   --------------------------------------------------------------------- -/

/-- `TokenGenerator.generate_m2m_token`: prefix, random part, and the first
16 hex chars of the digest of `"{session_id}:{user_id}"`. -/
def generateM2MToken (hash : String → String) (rand : String)
    (sessionId userId : String) : String :=
  M2M_TOKEN_PREFIX ++ "_" ++ rand ++ "_" ++
    pyTake M2M_TOKEN_DETERMINISTIC_LENGTH (hash (sessionId ++ ":" ++ userId))

/-- `TokenGenerator.hash_token`: the hex digest of the token. -/
def hashToken (hash : String → String) (token : String) : String := hash token

/- ---------------------------------------------------------------------
   src/server/mcp_server/services/tool_factory.py
   --------------------------------------------------------------------- -/

/-- The Python types used as dynamic annotations (`PARAMETER_TYPE_MAPPING`
range plus the `str` default). -/
inductive PyType where
  | float : PyType
  | int : PyType
  | bool : PyType
  | str : PyType
deriving DecidableEq

/-- `PARAMETER_TYPE_MAPPING.get(param_def.type, str)`. -/
def parameterTypeMapping (t : String) : PyType :=
  if t = "number" then .float
  else if t = "integer" then .int
  else if t = "boolean" then .bool
  else if t = "string" then .str
  else .str

/-- The raw value returned by a factory-generated tool function.  In the
source the image/custom cases are returned as the `json.dumps` rendering of
a fixed-shape tagged dict, which the output handler immediately re-parses;
this embedding carries the tagged value itself and renders it with
`jsonDumps` where the source passes the string on verbatim. -/
inductive RawResult where
  | text (s : String) : RawResult
  | image (s3_key s3_bucket : String) : RawResult
  | custom (flow_type configuration : String) : RawResult

/-- `output_content.get(key, '')` where validated content stores a JSON
string; non-string values cannot occur for the validated tools every claim
ranges over and fall back to the empty string here. -/
def contentStr (content : List (String × JsonVal)) (key : String) : String :=
  match dictGet content key with
  | some (.str s) => s
  | _ => ""

/-- `ToolFactory._execute_tool_logic`: the body of every generated tool
function; it ignores the call arguments and renders the declared output. -/
def executeToolLogic (td : ToolDefinitionR) : RawResult :=
  if td.output.output_type = "text" then .text (contentStr td.output.output_content "text")
  else if td.output.output_type = "image" then
    .image (contentStr td.output.output_content "s3_key")
      (contentStr td.output.output_content "s3_bucket")
  else if td.output.output_type = "custom" then
    .custom (contentStr td.output.output_content "flow_type")
      (contentStr td.output.output_content "configuration")
  else .text (contentStr td.output.output_content "text")

/-- The string a generated tool function actually returns (see `RawResult`). -/
def rawResultString : RawResult → String
  | .text s => s
  | .image k b =>
    jsonDumps (.obj [("type", .str "image"), ("s3_key", .str k), ("s3_bucket", .str b)])
  | .custom ft cfg =>
    jsonDumps (.obj [("type", .str "custom_flow"), ("flow_type", .str ft),
      ("configuration", .str cfg)])

/-- `ToolFactory._generate_docstring`. -/
def generateDocstring (td : ToolDefinitionR) : String :=
  td.parameters.foldl
    (fun acc p => acc ++ "    " ++ p.1 ++ ": " ++ p.2.description ++ "\n")
    (td.description ++ "\n\nArgs:\n")
  ++ "\nReturns:\n    str: Tool execution result"

/-- `ToolFactory._generate_type_annotations` (a Python dict, built by
assignment, ending with the `return` annotation). -/
def generateTypeAnnotations (td : ToolDefinitionR) : List (String × PyType) :=
  dictInsert
    (td.parameters.foldl
      (fun acc p => dictInsert acc p.1 (parameterTypeMapping p.2.type)) [])
    "return" .str

/-- A factory-generated tool function: its metadata (`__name__`, `__doc__`,
`__annotations__`) plus the captured tool definition that determines its
behaviour (`_execute_tool_logic`). -/
structure ToolFunc where
  name : String
  doc : String
  annotations : List (String × PyType)
  toolDef : ToolDefinitionR

/-- `ToolFactory._create_single_tool_function` / `_set_function_metadata`. -/
def createSingleToolFunction (td : ToolDefinitionR) : ToolFunc :=
  { name := td.name
    doc := generateDocstring td
    annotations := generateTypeAnnotations td
    toolDef := td }

/-- `ToolFactory.create_tool_functions`. -/
def createToolFunctions (tds : List ToolDefinitionR) : List ToolFunc :=
  tds.map createSingleToolFunction

/- ---------------------------------------------------------------------
   src/server/mcp_server/mcp_lambda_handler.py
   --------------------------------------------------------------------- -/

/-- Tool-name derivation in `_register_tool`: split the function name on
underscores, keep the first chunk, capitalize the rest (camelCase). -/
def camelCaseName (funcName : String) : String :=
  match pySplit '_' funcName with
  | [] => ""
  | p :: rest => p ++ joinWith "" (rest.map pyCapitalize)

/-- `get_type_schema` restricted to the basic types the tool factory
produces as annotations (its Enum/Dict/List branches are unreachable from
factory-generated tools). -/
def getTypeSchema : PyType → JsonVal
  | .int => .obj [("type", .str "integer")]
  | .float => .obj [("type", .str "number")]
  | .bool => .obj [("type", .str "boolean")]
  | .str => .obj [("type", .str "string")]

/-- The docstring `Args:` parsing loop of `_register_tool`: scan lines,
switch into args mode at a line whose strip starts with `Args:`, stop at a
blank line or a `Returns:` line, and record `name: description` entries. -/
def argDescriptionsLoop : List String → Bool → List (String × String) →
    List (String × String)
  | [], _, acc => acc
  | line :: rest, inArgs, acc =>
    if pyStartswith (pyStrip line) "Args:" then argDescriptionsLoop rest true acc
    else if inArgs then
      if pyStrip line = "" || pyStartswith (pyStrip line) "Returns:" then acc
      else if line.data.contains ':' then
        let p := splitColon1 line.data
        argDescriptionsLoop rest true
          (dictInsert acc (pyStrip (String.mk p.1)) (pyStrip (String.mk p.2)))
      else argDescriptionsLoop rest true acc
    else argDescriptionsLoop rest false acc

/-- `arg_descriptions` of `_register_tool` (`if doc:` guard included). -/
def argDescriptions (doc : String) : List (String × String) :=
  if doc = "" then [] else argDescriptionsLoop (pySplit '\n' doc) false []

/-- One parameter's entry in `inputSchema.properties`: the type schema plus
a `description` field when the docstring parse found one. -/
def propertySchema (descs : List (String × String)) (paramName : String)
    (pt : PyType) : JsonVal :=
  match getTypeSchema pt with
  | .obj fields =>
    match dictGet descs paramName with
    | some d => .obj (dictInsert fields "description" (.str d))
    | none => .obj fields
  | j => j

/-- The schema document `_register_tool` builds for one function: name,
description (first docstring paragraph), and an input schema whose
properties come from the type hints (minus `return`) and whose `required`
list contains every hinted parameter. -/
def toolSchema (f : ToolFunc) : JsonVal :=
  let doc := f.doc
  let descs := argDescriptions doc
  let hints := dictRemove f.annotations "return"
  let props := hints.foldl
    (fun acc p => dictInsert acc p.1 (propertySchema descs p.1 p.2)) []
  .obj [("name", .str (camelCaseName f.name)),
        ("description", .str (String.mk (takeBeforeBlank doc.data))),
        ("inputSchema", .obj [("type", .str "object"),
                              ("properties", .obj props),
                              ("required", .arr (hints.map (fun p => .str p.1)))])]

/-- `MCPLambdaHandler` state: the schema registry (`self.tools`) and the
implementation registry (`self.tool_implementations`); the implementation
payload of a factory-generated callable is its captured tool definition. -/
structure MCPHandler where
  name : String
  version : String
  tools : List (String × JsonVal)
  tool_implementations : List (String × ToolDefinitionR)

/-- `MCPLambdaHandler._register_tool`. -/
def registerTool (h : MCPHandler) (f : ToolFunc) : MCPHandler :=
  let tn := camelCaseName f.name
  { h with
    tools := dictInsert h.tools tn (toolSchema f)
    tool_implementations := dictInsert h.tool_implementations tn f.toolDef }

/-- `MCPLambdaHandler.__init__` over a list of callables. -/
def mkMCPLambdaHandler (name version : String) (funcs : List ToolFunc) :
    MCPHandler :=
  funcs.foldl registerTool
    { name := name, version := version, tools := [], tool_implementations := [] }

/-- `JSONRPCError` (from the absent `mcp_server/types.py`; shape taken from
its construction sites: `code` and `message`). -/
structure JSONRPCErrorR where
  code : Int
  message : String

/-- `JSONRPCResponse` (from the absent `mcp_server/types.py`; shape taken
from its construction sites). -/
structure JSONRPCResponseR where
  jsonrpc : String
  id : Option JsonVal
  result : Option JsonVal
  error : Option JSONRPCErrorR
  errorContent : Option (List JsonVal)

/-- An HTTP response body: the source serializes JSON-RPC responses with
`model_dump_json`; this embedding keeps them structured. -/
inductive BodyV where
  | text (s : String) : BodyV
  | rpc (r : JSONRPCResponseR) : BodyV
  | json (j : JsonVal) : BodyV

/-- A Lambda proxy response. -/
structure HttpResponse where
  statusCode : Int
  body : BodyV
  headers : List (String × String)

/-- Authorizer context fields the router reads from
`event.requestContext.authorizer`. -/
structure AuthorizerCtx where
  userId : Option String
  sessionId : Option String
  tokenType : Option String

/-- A Lambda event: headers and parsed JSON body for the protocol engine
(`json.loads` of the body is modelled by the `Option JsonVal`, `none` being
a `JSONDecodeError`), plus path/method/authorizer for the router. -/
structure HttpEvent where
  headers : List (String × String)
  body : Option JsonVal
  path : String
  httpMethod : String
  authorizer : Option AuthorizerCtx

/-- `MCPLambdaHandler._error_code_to_http_status`. -/
def errorCodeToHttpStatus (c : Int) : Int :=
  if c = -32700 then 400
  else if c = -32600 then 400
  else if c = -32601 then 404
  else if c = -32602 then 400
  else if c = -32603 then 500
  else 500

def mcpHeaders : List (String × String) :=
  [("Content-Type", "application/json"), ("MCP-Version", "0.6")]

/-- `MCPLambdaHandler._create_error_response` (with the default status
mapping; no caller passes an explicit status). -/
def createErrorResponse (code : Int) (message : String) (rid : Option JsonVal)
    (errorContent : Option (List JsonVal)) : HttpResponse :=
  { statusCode := errorCodeToHttpStatus code
    body := .rpc { jsonrpc := "2.0", id := rid, result := none,
                   error := some { code := code, message := message },
                   errorContent := errorContent }
    headers := mcpHeaders }

/-- `MCPLambdaHandler._create_success_response`. -/
def createSuccessResponse (result : JsonVal) (rid : Option JsonVal) :
    HttpResponse :=
  { statusCode := 200
    body := .rpc { jsonrpc := "2.0", id := rid, result := some result,
                   error := none, errorContent := none }
    headers := mcpHeaders }

/-- `TextContent(text=t).model_dump()` (model from the absent
`mcp_server/types.py`; the spec's content block is `{type:"text", text}`). -/
def textContentJson (t : String) : JsonVal :=
  .obj [("type", .str "text"), ("text", .str t)]

/-- `ErrorContent(text=t).model_dump()` (same shape as a text block). -/
def errorContentJson (t : String) : JsonVal :=
  .obj [("type", .str "text"), ("text", .str t)]

/-- `ImageContent(data=d, mimeType=m).model_dump()` (model from the absent
`mcp_server/types.py`). -/
def imageContentJson (data mimeType : String) : JsonVal :=
  .obj [("type", .str "image"), ("data", .str data), ("mimeType", .str mimeType)]

/-- `InitializeResult(...).model_dump()` for the literal arguments used in
`handle_request`. -/
def initResultJson (h : MCPHandler) : JsonVal :=
  .obj [("protocolVersion", .str "2024-11-05"),
        ("serverInfo", .obj [("name", .str h.name), ("version", .str h.version)]),
        ("capabilities", .obj [("tools", .obj [("list", .bool true),
                                               ("call", .bool true)])])]

/-- A validated `JSONRPCRequest` (model from the absent
`mcp_server/types.py`: `jsonrpc`, optional `id`, `method`, optional dict
`params`). -/
structure JSONRPCRequestR where
  id : Option JsonVal
  method : String
  params : Option (List (String × JsonVal))

/-- `request_id = body.get('id')`: Python returns `None` both for an absent
key and for a JSON `null` value. -/
def requestIdOf (kvs : List (String × JsonVal)) : Option JsonVal :=
  match dictGet kvs "id" with
  | some .null => none
  | some v => some v
  | none => none

/-- `JSONRPCRequest.model_validate(body)`: `method` must be a string and
`params`, when present and non-null, must be an object (a JSON `null` id is
`None`, like an absent one); a failure surfaces as the catch-all `-32000`
branch of `handle_request`. -/
def modelValidateRequest (kvs : List (String × JsonVal)) :
    Option JSONRPCRequestR :=
  match dictGet kvs "method" with
  | some (.str m) =>
    match dictGet kvs "params" with
    | none => some { id := requestIdOf kvs, method := m, params := none }
    | some .null => some { id := requestIdOf kvs, method := m, params := none }
    | some (.obj l) => some { id := requestIdOf kvs, method := m, params := some l }
    | some _ => none
  | _ => none

/-- The `tools/call` branch of `handle_request` once the tool was found:
Python iterates `tool_args.items()` (raising inside the try when the
`arguments` value is not a dict, which the except turns into `-32603`),
performs the (here vacuous) enum conversion, calls the tool and wraps
`str(result)` in a text content block. -/
def toolCallFound (td : ToolDefinitionR) (argsVal : JsonVal)
    (rid : Option JsonVal) : HttpResponse :=
  match argsVal with
  | .obj _ =>
    createSuccessResponse
      (.obj [("content", .arr [textContentJson (rawResultString (executeToolLogic td))])])
      rid
  | v =>
    let m := "AttributeError: " ++ pyStr v ++ " has no attribute items"
    createErrorResponse (-32603) ("Error executing tool: " ++ m) rid
      (some [errorContentJson m])

/-- `body.get('jsonrpc') != '2.0'` as a boolean. -/
def jsonrpcIs20 (kvs : List (String × JsonVal)) : Bool :=
  match dictGet kvs "jsonrpc" with
  | some (.str s) => s = "2.0"
  | _ => false

/-- Python truthiness of `request.params` (`None` and `{}` are falsy). -/
def paramsTruthy : Option (List (String × JsonVal)) → Bool
  | some l => !l.isEmpty
  | none => false

/-- `MCPLambdaHandler.handle_request`. -/
def handleRequest (h : MCPHandler) (ev : HttpEvent) : HttpResponse :=
  let headers := ev.headers.map (fun p => (pyLower p.1, p.2))
  if dictGet headers "content-type" ≠ some "application/json" then
    createErrorResponse (-32700) "Unsupported Media Type" none none
  else
    match ev.body with
    | none => createErrorResponse (-32700) "Parse error" none none
    | some body =>
      match body with
      | .obj kvs =>
        let rid := requestIdOf kvs
        if !(dictHas kvs "id") then
          { statusCode := 202, body := .text "", headers := mcpHeaders }
        else if !(jsonrpcIs20 kvs) || !(dictHas kvs "method") then
          createErrorResponse (-32700) "Parse error" rid none
        else
          match modelValidateRequest kvs with
          | none => createErrorResponse (-32000) "request validation error" rid none
          | some req =>
            if req.method = "initialize" then
              createSuccessResponse (initResultJson h) req.id
            else if req.method = "tools/list" then
              createSuccessResponse (.obj [("tools", .arr (h.tools.map (fun p => p.2)))]) req.id
            else if req.method = "tools/call" && paramsTruthy req.params then
              match req.params with
              | some l =>
                let argsVal := (dictGet l "arguments").getD (.obj [])
                match dictGet l "name" with
                | some (.str s) =>
                  if dictHas h.tools s then
                    match dictGet h.tool_implementations s with
                    | some td => toolCallFound td argsVal req.id
                    | none =>
                      createErrorResponse (-32603)
                        ("Error executing tool: KeyError " ++ squo ++ s ++ squo) req.id
                        (some [errorContentJson ("KeyError " ++ squo ++ s ++ squo)])
                  else
                    createErrorResponse (-32601)
                      ("Tool " ++ squo ++ s ++ squo ++ " not found") req.id none
                | some v =>
                  createErrorResponse (-32601)
                    ("Tool " ++ squo ++ pyStr v ++ squo ++ " not found") req.id none
                | none =>
                  createErrorResponse (-32601)
                    ("Tool " ++ squo ++ "None" ++ squo ++ " not found") req.id none
              | none => createErrorResponse (-32601) ("Method not found: " ++ req.method) req.id none
            else if req.method = "ping" then
              createSuccessResponse (.obj []) req.id
            else
              createErrorResponse (-32601) ("Method not found: " ++ req.method) req.id none
      | _ =>
        createErrorResponse (-32700) "Parse error" none none

/- ---------------------------------------------------------------------
   src/server/mcp_server/services/s3_service.py (get_image) and
   src/server/mcp_server/handlers/output_handler.py
   --------------------------------------------------------------------- -/

/-- Outcome of one `s3_client.get_object` call: success carries the
base64-encoded bytes and the reported content type (the base64 encoding and
the `ContentType` default of `get_image` happen inside the collaborator
model); failures carry the boto `ClientError` code or a generic exception
message. -/
inductive S3Result where
  | ok (base64Data contentType : String) : S3Result
  | clientErr (code : Int) (msg : String) : S3Result
  | exn (msg : String) : S3Result

/-- The external S3 store: bucket and key to an access outcome. -/
def S3Client : Type := String → String → S3Result

/-- `S3Service.get_image`: resolve the bucket (`s3_bucket or
self.bucket_name`, the empty string being falsy), fetch, and convert boto
failures into the messages the output handler reports. -/
def s3GetImage (client : S3Client) (defaultBucket s3_key s3_bucket : String) :
    Except String (String × String) :=
  let bucket := if s3_bucket = "" then defaultBucket else s3_bucket
  match client bucket s3_key with
  | .ok d m => .ok (d, m)
  | .clientErr code msg =>
    if code = 403 then
      .error ("Access denied downloading from S3 bucket " ++ squo ++ bucket ++ squo ++
        ". Check IAM permissions.")
    else if code = 404 then
      .error ("Image not found: " ++ s3_key ++ " in bucket " ++ squo ++ bucket ++ squo)
    else .error ("AWS error downloading image from S3: " ++ msg)
  | .exn msg => .error ("Failed to download image from S3: " ++ msg)

/-- `OutputHandler._handle_image_output`: an empty key raises
`ValueError("Image output missing s3_key")`; any fetch failure is caught
and rendered as an `Error loading image: ...` text block; success becomes
an image content block. -/
def handleImageOutput (client : S3Client) (defaultBucket s3_key s3_bucket : String) :
    List JsonVal :=
  if s3_key = "" then
    [textContentJson "Error loading image: Image output missing s3_key"]
  else
    match s3GetImage client defaultBucket s3_key s3_bucket with
    | .ok (d, m) => [imageContentJson d m]
    | .error e => [textContentJson ("Error loading image: " ++ e)]

/-- The sandboxed JS interpreter bridge: `_execute_javascript` assembles an
instrumented script (parameter variable declarations, `{parameter N}`
substitution, an `output`-capturing suffix) and runs it under dukpy; the
whole bridge is an external collaborator here, mapping the configured
source and the call arguments to either the captured `output` value
(`none` when the script defines none) or an execution error. -/
def JsExec : Type := String → List (String × JsonVal) → Except String (Option JsonVal)

/-- `OutputHandler._handle_custom_flow_output` (no claim exercises this
path; the JSON re-rendering of string results is collapsed into
`jsonDumps`/`pyStr` over the already-parsed value). -/
def handleCustomFlowOutput (js : JsExec) (flow_type configuration : String)
    (params : List (String × JsonVal)) : List JsonVal :=
  if flow_type ≠ "javascript" then
    [textContentJson ("Unsupported flow type: " ++ flow_type)]
  else if configuration = "" then
    [textContentJson "No JavaScript code provided"]
  else
    match js configuration params with
    | .error e =>
      [textContentJson ("Error executing custom flow: JavaScript execution failed: " ++ e)]
    | .ok none => [textContentJson "No 'output' variable found in JavaScript code"]
    | .ok (some (.str s)) => [textContentJson s]
    | .ok (some v) => [textContentJson (jsonDumps v)]

/-- `OutputHandler.process_output`: dispatch on the (re-parsed) tagged tool
result.  The source round-trips the result through `str`/`json.loads`; a
`RawResult` carries the parse outcome directly (a `.text` value stands for
a result string that does not parse to an image/custom tagged object). -/
def processOutput (client : S3Client) (js : JsExec) (defaultBucket : String)
    (r : RawResult) (params : List (String × JsonVal)) : List JsonVal :=
  match r with
  | .text s => [textContentJson s]
  | .image k b => handleImageOutput client defaultBucket k b
  | .custom ft cfg => handleCustomFlowOutput js ft cfg params

/-- Modelled from the spec: `src/server/mcp_server/handlers/mcp_lambda_handler.py`
is imported by `handlers/__init__.py` and `services/server_service.py` but
absent from `src/`.  Per spec §4.7 its `tools/call` success path feeds the
tool result through the OutputRenderer ("success → content blocks from
OutputRenderer", §4.8 "Input: raw tool result + original call arguments")
while the rest of the request handling matches the sibling
`mcp_lambda_handler.py` embedded above as `handleRequest`. -/
def toolCallFoundOH (client : S3Client) (js : JsExec) (defaultBucket : String)
    (td : ToolDefinitionR) (argsVal : JsonVal) (rid : Option JsonVal) :
    HttpResponse :=
  match argsVal with
  | .obj args =>
    createSuccessResponse
      (.obj [("content", .arr (processOutput client js defaultBucket
        (executeToolLogic td) args))])
      rid
  | v =>
    let m := "AttributeError: " ++ pyStr v ++ " has no attribute items"
    createErrorResponse (-32603) ("Error executing tool: " ++ m) rid
      (some [errorContentJson m])

/-- Modelled from the spec: `handle_request` of the absent
`handlers/mcp_lambda_handler.py` — identical to `handleRequest` except that
a successful `tools/call` renders content through `processOutput`. -/
def handleRequestOH (client : S3Client) (js : JsExec) (defaultBucket : String)
    (h : MCPHandler) (ev : HttpEvent) : HttpResponse :=
  let headers := ev.headers.map (fun p => (pyLower p.1, p.2))
  if dictGet headers "content-type" ≠ some "application/json" then
    createErrorResponse (-32700) "Unsupported Media Type" none none
  else
    match ev.body with
    | none => createErrorResponse (-32700) "Parse error" none none
    | some body =>
      match body with
      | .obj kvs =>
        let rid := requestIdOf kvs
        if !(dictHas kvs "id") then
          { statusCode := 202, body := .text "", headers := mcpHeaders }
        else if !(jsonrpcIs20 kvs) || !(dictHas kvs "method") then
          createErrorResponse (-32700) "Parse error" rid none
        else
          match modelValidateRequest kvs with
          | none => createErrorResponse (-32000) "request validation error" rid none
          | some req =>
            if req.method = "initialize" then
              createSuccessResponse (initResultJson h) req.id
            else if req.method = "tools/list" then
              createSuccessResponse (.obj [("tools", .arr (h.tools.map (fun p => p.2)))]) req.id
            else if req.method = "tools/call" && paramsTruthy req.params then
              match req.params with
              | some l =>
                let argsVal := (dictGet l "arguments").getD (.obj [])
                match dictGet l "name" with
                | some (.str s) =>
                  if dictHas h.tools s then
                    match dictGet h.tool_implementations s with
                    | some td => toolCallFoundOH client js defaultBucket td argsVal req.id
                    | none =>
                      createErrorResponse (-32603)
                        ("Error executing tool: KeyError " ++ squo ++ s ++ squo) req.id
                        (some [errorContentJson ("KeyError " ++ squo ++ s ++ squo)])
                  else
                    createErrorResponse (-32601)
                      ("Tool " ++ squo ++ s ++ squo ++ " not found") req.id none
                | some v =>
                  createErrorResponse (-32601)
                    ("Tool " ++ squo ++ pyStr v ++ squo ++ " not found") req.id none
                | none =>
                  createErrorResponse (-32601)
                    ("Tool " ++ squo ++ "None" ++ squo ++ " not found") req.id none
              | none => createErrorResponse (-32601) ("Method not found: " ++ req.method) req.id none
            else if req.method = "ping" then
              createSuccessResponse (.obj []) req.id
            else
              createErrorResponse (-32601) ("Method not found: " ++ req.method) req.id none
      | _ =>
        createErrorResponse (-32700) "Parse error" none none

/- ---------------------------------------------------------------------
   src/server/mcp_server/utils/response_builder.py
   --------------------------------------------------------------------- -/

def CORS_HEADERS : List (String × String) :=
  [("Access-Control-Allow-Origin", "*"),
   ("Access-Control-Allow-Headers", "Content-Type,Authorization"),
   ("Access-Control-Allow-Methods", "GET,POST,OPTIONS")]

/-- `ResponseBuilder.success` / `created`. -/
def rbSuccess (data : JsonVal) (statusCode : Int) (includeCors : Bool) :
    HttpResponse :=
  { statusCode := statusCode
    body := .json data
    headers := [("Content-Type", "application/json")] ++
      (if includeCors then CORS_HEADERS else []) }

/-- `ResponseBuilder.error` (optionally with details). -/
def rbError (message : String) (statusCode : Int) (details : Option JsonVal)
    (includeCors : Bool) : HttpResponse :=
  { statusCode := statusCode
    body := .json (.obj ([("error", .str message)] ++
      (match details with | some d => [("details", d)] | none => [])))
    headers := [("Content-Type", "application/json")] ++
      (if includeCors then CORS_HEADERS else []) }

def rbNotFound (message : String) : HttpResponse := rbError message 404 none false
def rbForbidden (message : String) : HttpResponse := rbError message 403 none false

/- ---------------------------------------------------------------------
   src/server/mcp_server/services/server_service.py and the session record
   it persists (DynamoDB get/put are the `String → Option ServerDataR`
   store parameter below)
   --------------------------------------------------------------------- -/

/-- The session record `create_server_data` persists.  Note that it stores
both the raw `m2m_token` and its hash. -/
structure ServerDataR where
  session_id : String
  user_id : String
  name : String
  description : String
  tools : List ToolDefinitionR
  status : String
  m2m_token : String
  m2m_token_hash : String
  created_at : Int
  updated_at : Int
  expires_at : Int

/-- `ServerService.create_server_data`.  External inputs are explicit: the
digest function, the `secrets.token_urlsafe` output `rand` used inside the
token, the fresh id the generator would produce when no session id is
supplied, and the current epoch second. -/
def createServerData (hash : String → String) (rand freshId : String)
    (now : Int) (request : MCPServerRequestR) (userId : String)
    (sessionId : Option String) : ServerDataR × MCPHandler :=
  let sid := match sessionId with
    | some s => if s = "" then freshId else s
    | none => freshId
  let m2mToken := generateM2MToken hash rand sid userId
  let toolFunctions := createToolFunctions request.tools
  let mcpHandler := mkMCPLambdaHandler request.name "1.0.0" toolFunctions
  ({ session_id := sid
     user_id := userId
     name := request.name
     description := request.description
     tools := request.tools
     status := "active"
     m2m_token := m2mToken
     m2m_token_hash := hashToken hash m2mToken
     created_at := now
     updated_at := now
     expires_at := now + SERVER_EXPIRY_SECONDS }, mcpHandler)

/-- `ServerService.create_server_response_data`: the body of the 201
creation response. -/
def createServerResponseData (serverData : ServerDataR)
    (request : MCPServerRequestR) : JsonVal :=
  .obj [("message", .str "MCP server created successfully"),
        ("session_id", .str serverData.session_id),
        ("status", .str "created"),
        ("m2m_token", .str serverData.m2m_token),
        ("server_details", .obj
          [("name", .str request.name),
           ("description", .str request.description),
           ("tools_count", .num request.tools.length),
           ("created_at", .num serverData.created_at),
           ("url", .str ("https://app.mockmcp.com/servers/" ++
             serverData.session_id ++ "/mcp"))]),
        ("authentication", .obj
          [("type", .str "Bearer"),
           ("token", .str serverData.m2m_token),
           ("usage", .str "Use this token in Authorization header for MCP server access")])]

/-- `MCPServerListResponse(**session)` (models/response_models.py): the
fields echoed by the list endpoint — including the raw `m2m_token`. -/
structure ListEntryR where
  session_id : String
  user_id : String
  name : String
  description : String
  tools : List ToolDefinitionR
  status : String
  m2m_token : String
  created_at : Int
  updated_at : Int
  expires_at : Int

/-- Conversion of one stored session into an `MCPServerListResponse`; every
record produced by `createServerData` carries all required fields, so the
pydantic conversion cannot fail on them. -/
def toListEntry (s : ServerDataR) : ListEntryR :=
  { session_id := s.session_id, user_id := s.user_id, name := s.name
    description := s.description, tools := s.tools, status := s.status
    m2m_token := s.m2m_token, created_at := s.created_at
    updated_at := s.updated_at, expires_at := s.expires_at }

/-- `ServerService.process_server_list_response`: patch `status` by cache
membership, then convert each record. -/
def processServerListResponse (sessions : List ServerDataR)
    (activeSessions : List String) : List ListEntryR :=
  sessions.map (fun s =>
    let st := if activeSessions.contains s.session_id then "active" else "idle"
    toListEntry { s with status := st })

/-- `MCPServerRequest(**session_data)` applied to a stored record: pydantic
ignores the extra stored keys and re-validates name/description/tools. -/
def sessionToRequest (s : ServerDataR) : MCPServerRequestR :=
  { name := s.name, description := s.description, tools := s.tools }

/-- `ServerService.recreate_handler_from_session`: re-validate the stored
data and rebuild the handler (the token regenerated on the way is
discarded; the handler depends only on the name and tools).  `none` models
the `ValidationError` the caller catches. -/
def recreateHandlerFromSession (hash : String → String) (rand : String)
    (sessionData : ServerDataR) (userId sessionId : String) :
    Option MCPHandler :=
  let req := sessionToRequest sessionData
  if validMCPServerRequest req then
    some (createServerData hash rand sessionId 0 req userId (some sessionId)).2
  else none

/- ---------------------------------------------------------------------
   src/server/mcp_server/handlers/mcp_server_handler.py (load_server)
   --------------------------------------------------------------------- -/

/-- `MCPServerHandler.load_server`: serve from the in-memory
`active_handlers` cache when present (no store read, no ownership check);
otherwise load the session, check existence and ownership, recreate the
handler, and dispatch.  Only the response is modelled; the source also
inserts the recreated handler into the cache. -/
def loadServer (hash : String → String) (rand : String) (client : S3Client)
    (js : JsExec) (defaultBucket : String)
    (activeHandlers : List (String × MCPHandler))
    (store : String → Option ServerDataR)
    (sessionId userId : String) (ev : HttpEvent) : HttpResponse :=
  match dictGet activeHandlers sessionId with
  | some handler => handleRequestOH client js defaultBucket handler ev
  | none =>
    match store sessionId with
    | none => rbNotFound "MCP server session not found"
    | some session =>
      if session.user_id ≠ userId then
        rbForbidden "Access denied: MCP server session does not belong to authenticated user"
      else
        match recreateHandlerFromSession hash rand session userId sessionId with
        | none => rbError "Invalid MCP server session data" 500 (some (.arr [])) false
        | some handler => handleRequestOH client js defaultBucket handler ev

/- ---------------------------------------------------------------------
   src/server/constants.py, responses.py, utils.py, auth.py, routes.py,
   app.py (the modular router)
   --------------------------------------------------------------------- -/

def USER_AUTH_REQUIRED : String := "This operation requires user authentication"
def SERVER_AUTH_REQUIRED : String := "This operation requires server authentication"
def INVALID_AUTH_TYPE : String := "Invalid authentication type"
def TOKEN_SESSION_MISMATCH : String := "Token is not valid for this session"
def USER_ID_NOT_FOUND : String := "User ID not found in request context"
def RESOURCE_NOT_FOUND : String := "Resource not found"
def ENDPOINT_NOT_FOUND : String := "Endpoint not found"

/-- `responses.create_response` for JSON bodies (CORS headers included). -/
def createRouterResponse (statusCode : Int) (body : JsonVal) : HttpResponse :=
  { statusCode := statusCode
    body := .json body
    headers := [("Content-Type", "application/json"),
                ("Access-Control-Allow-Origin", "*"),
                ("Access-Control-Allow-Methods", "GET, POST, DELETE, OPTIONS"),
                ("Access-Control-Allow-Headers", "Content-Type, Authorization")] }

/-- `responses.error_response`. -/
def errorResponse (statusCode : Int) (message : String) : HttpResponse :=
  createRouterResponse statusCode (.obj [("error", .str message)])

/-- `utils.parse_path` output dict. -/
structure PathInfo where
  resource : Option String
  extracted_session_id : Option String
  protocolSeg : Option String
  is_mcp : Bool

/-- `utils.parse_path`: strip slashes, split, drop empty parts. -/
def parsePath (path : String) : PathInfo :=
  let parts := (pySplit '/' path).filter (fun p => p != "")
  match parts with
  | [] => { resource := none, extracted_session_id := none,
            protocolSeg := none, is_mcp := false }
  | r :: rest =>
    let protoSeg := (r :: rest).getLast (by simp)
    { resource := some r
      extracted_session_id := rest.head?
      protocolSeg := some protoSeg
      is_mcp := protoSeg = "mcp" }

/-- The auth-context dict built by `auth.extract_auth_context` and extended
by the router with `extracted_session_id`. -/
structure AuthContext where
  user_id : Option String
  session_id : Option String
  token_type : Option String
  extracted_session_id : Option String

/-- `auth.extract_auth_context` (an absent or malformed authorizer section
yields the empty dict, i.e. all-`none`). -/
def extractAuthContext (ev : HttpEvent) : AuthContext :=
  match ev.authorizer with
  | none => { user_id := none, session_id := none, token_type := none,
              extracted_session_id := none }
  | some a => { user_id := a.userId, session_id := a.sessionId,
                token_type := a.tokenType, extracted_session_id := none }

/-- A route handler: event and auth context to response. -/
def RouteHandler : Type := HttpEvent → AuthContext → HttpResponse

/-- `auth.require_auth(required)`: reject with 403 and a class-specific
message when the grant's token type differs from the handler's required
class. -/
def requireAuth (required : String) (handler : RouteHandler) : RouteHandler :=
  fun ev ctx =>
    if ctx.token_type ≠ some required then
      errorResponse 403
        (if required = "cognito" then USER_AUTH_REQUIRED
         else if required = "m2m" then SERVER_AUTH_REQUIRED
         else INVALID_AUTH_TYPE)
    else handler ev ctx

/-- `auth.require_session_match`: reject with 403 when the authorizer-bound
session differs from the path-embedded one. -/
def requireSessionMatch (handler : RouteHandler) : RouteHandler :=
  fun ev ctx =>
    if ctx.session_id ≠ ctx.extracted_session_id then
      errorResponse 403 TOKEN_SESSION_MISMATCH
    else handler ev ctx

/-- `handlers.handle_mcp_server_access` body: delegate to
`load_server(extracted_session_id, user_id, event, context)`. -/
def mcpServerAccessCore (hash : String → String) (rand : String)
    (client : S3Client) (js : JsExec) (defaultBucket : String)
    (activeHandlers : List (String × MCPHandler))
    (store : String → Option ServerDataR) : RouteHandler :=
  fun ev ctx =>
    loadServer hash rand client js defaultBucket activeHandlers store
      (ctx.extracted_session_id.getD "") (ctx.user_id.getD "") ev

/-- The route keys of `routes.RouteMap` that resolve to a handler. -/
inductive RouteTag where
  | serverCreation | serverListing | serverDeletion | imageUpload | mcpAccess

/-- `routes.RouteMap.__init__` / `get_handler`: (resource, method,
mcp-or-not) to handler. -/
def routeFor (resource method : String) (isMcp : Bool) : Option RouteTag :=
  if isMcp then
    if resource = "server" && (method = "GET" || method = "POST") then
      some .mcpAccess
    else none
  else
    if resource = "server" && method = "POST" then some .serverCreation
    else if resource = "server" && method = "GET" then some .serverListing
    else if resource = "server" && method = "DELETE" then some .serverDeletion
    else if resource = "upload-image" && method = "POST" then some .imageUpload
    else none

/-- `app.router`: extract the auth context, refuse missing/empty user ids,
parse the path, look up the route, and run the decorated handler.  The four
tenant-facing handler cores are passed in as parameters (each is a thin
wrapper around the separately-embedded service layer); the MCP-access
handler is the concrete decorated `loadServer` chain. -/
def appRouter (tenantCreate tenantList tenantDelete tenantUpload : RouteHandler)
    (hash : String → String) (rand : String) (client : S3Client) (js : JsExec)
    (defaultBucket : String) (activeHandlers : List (String × MCPHandler))
    (store : String → Option ServerDataR) (ev : HttpEvent) : HttpResponse :=
  let ctx := extractAuthContext ev
  match ctx.user_id with
  | none => errorResponse 401 USER_ID_NOT_FOUND
  | some uid =>
    if uid = "" then errorResponse 401 USER_ID_NOT_FOUND
    else
      let pinfo := parsePath ev.path
      match pinfo.resource with
      | none => errorResponse 404 RESOURCE_NOT_FOUND
      | some resource =>
        let ctx := { ctx with extracted_session_id := pinfo.extracted_session_id }
        match routeFor resource ev.httpMethod pinfo.is_mcp with
        | none => errorResponse 404 ENDPOINT_NOT_FOUND
        | some .serverCreation => requireAuth "cognito" tenantCreate ev ctx
        | some .serverListing => requireAuth "cognito" tenantList ev ctx
        | some .serverDeletion => requireAuth "cognito" tenantDelete ev ctx
        | some .imageUpload => requireAuth "cognito" tenantUpload ev ctx
        | some .mcpAccess =>
          requireAuth "m2m"
            (requireSessionMatch
              (mcpServerAccessCore hash rand client js defaultBucket
                activeHandlers store)) ev ctx

/- ---------------------------------------------------------------------
   src/authorizer/m2m_validator.py (and the identical validate_m2m_token
   in src/authorizer/app.py)
   --------------------------------------------------------------------- -/

/-- A DynamoDB session item as the authorizer reads it: every field access
goes through `.get`, so each field may be absent. -/
structure AuthSessionR where
  status : Option String
  m2m_token_hash : Option String
  user_id : Option String

/-- `validate_m2m_token(token, session_id)`: digest the presented token,
load the session by id, require active status and a non-empty stored hash,
compare digests, and return the stored `user_id` on success (`none` is the
shared failure result).  The digest (`hashlib.sha256(...).hexdigest()`) and
the table are explicit parameters. -/
def validateM2MToken (hash : String → String)
    (table : String → Option AuthSessionR) (token sessionId : String) :
    Option String :=
  let tokenHash := hash token
  match table sessionId with
  | none => none
  | some session =>
    if session.status ≠ some "active" then none
    else
      match session.m2m_token_hash with
      | none => none
      | some storedHash =>
        if storedHash = "" then none
        else if tokenHash ≠ storedHash then none
        else session.user_id

/- ---------------------------------------------------------------------
   src/authorizer/app.py (credential classification) and
   src/authorizer/policy_generator.py
   --------------------------------------------------------------------- -/

/-- The two credential classes. -/
inductive TokenClass where
  | m2m : TokenClass
  | cognito : TokenClass
deriving DecidableEq

/-- The classification step of `lambda_handler`: a bearer token is an agent
(M2M) credential iff it starts with the literal prefix `mcp_m2m_`. -/
def classifyToken (token : String) : TokenClass :=
  if pyStartswith token "mcp_m2m_" then .m2m else .cognito

/-- The base ARN both policy generators compute:
`'/'.join(method_arn.split('/')[:2])`. -/
def arnBase (methodArn : String) : String :=
  joinWith "/" ((pySplit '/' methodArn).take 2)

/-- `create_m2m_auth_policy`: the single wildcarded resource pattern
`{base}/*/servers/*/mcp`. -/
def m2mPolicyResource (methodArn : String) : String :=
  arnBase methodArn ++ "/*/servers/*/mcp"

/-- `create_cognito_auth_policy`: the four management resource patterns. -/
def cognitoPolicyResources (methodArn : String) : List String :=
  [arnBase methodArn ++ "/GET/servers",
   arnBase methodArn ++ "/POST/servers",
   arnBase methodArn ++ "/DELETE/servers/*",
   arnBase methodArn ++ "/POST/images"]

/-- IAM resource wildcard matching: `*` matches any (possibly empty)
character sequence, including `/`. -/
def wildMatch : List Char → List Char → Bool
  | [], s => s.isEmpty
  | c :: p, s =>
    if c = '*' then
      wildMatch p s ||
        (match s with
         | [] => false
         | _ :: s2 => wildMatch (c :: p) s2)
    else
      match s with
      | [] => false
      | d :: s2 => c = d && wildMatch p s2
termination_by p s => (p.length, s.length)

/-- Wildcard matching on strings. -/
def wildMatchS (pat s : String) : Bool := wildMatch pat.data s.data

/- ---------------------------------------------------------------------
   Projections used by the theorem statements
   --------------------------------------------------------------------- -/

/-- The JSON-RPC error code carried by a response, when it is an error. -/
def respErrorCode (r : HttpResponse) : Option Int :=
  match r.body with
  | .rpc rr => rr.error.map (fun e => e.code)
  | _ => none

/-- The `inputSchema.required` list of a tool schema document. -/
def schemaRequired (schema : JsonVal) : Option JsonVal :=
  match schema with
  | .obj kvs =>
    match dictGet kvs "inputSchema" with
    | some (.obj is) => dictGet is "required"
    | _ => none
  | _ => none

/-- The registered tool names, i.e. the names served by `tools/list`. -/
def toolsListNames (h : MCPHandler) : List String :=
  h.tools.map Prod.fst

/-- Field access on a JSON object value. -/
def jsonField (j : JsonVal) (k : String) : Option JsonVal :=
  match j with
  | .obj kvs => dictGet kvs k
  | _ => none

/- ---------------------------------------------------------------------
   Helper lemmas about the Python-dict model
   --------------------------------------------------------------------- -/

theorem dictGet_isSome_iff {α : Type} (l : List (String × α)) (k : String) :
    (dictGet l k).isSome = true ↔ k ∈ l.map Prod.fst := by
  induction l with
  | nil => simp [dictGet]
  | cons p rest ih =>
    obtain ⟨k2, v⟩ := p
    by_cases hk : k2 = k
    · subst hk; simp [dictGet]
    · simp [dictGet, hk, ih, Ne.symm hk]

theorem dictHas_iff {α : Type} (l : List (String × α)) (k : String) :
    dictHas l k = true ↔ k ∈ l.map Prod.fst := by
  simpa [dictHas] using dictGet_isSome_iff l k

theorem dictInsert_fresh {α : Type} (l : List (String × α)) (k : String) (v : α)
    (h : k ∉ l.map Prod.fst) : dictInsert l k v = l ++ [(k, v)] := by
  unfold dictInsert
  rw [if_neg]
  simp [dictHas_iff, h]

theorem map_fst_dictInsert {α : Type} (l : List (String × α)) (k : String) (v : α) :
    (dictInsert l k v).map Prod.fst =
      if k ∈ l.map Prod.fst then l.map Prod.fst else l.map Prod.fst ++ [k] := by
  by_cases h : k ∈ l.map Prod.fst
  · rw [if_pos h]
    unfold dictInsert
    rw [if_pos ((dictHas_iff l k).2 h)]
    rw [List.map_map]
    apply List.map_congr_left
    intro p _
    by_cases hp : p.1 = k
    · simp [hp]
    · simp [hp]
  · rw [if_neg h, dictInsert_fresh l k v h]
    simp

theorem dictGet_append_left {α : Type} (l1 l2 : List (String × α)) (k : String)
    (h : k ∈ l1.map Prod.fst) : dictGet (l1 ++ l2) k = dictGet l1 k := by
  induction l1 with
  | nil => simp at h
  | cons p rest ih =>
    obtain ⟨k2, v⟩ := p
    by_cases hk : k2 = k
    · simp [dictGet, hk]
    · simp only [List.map_cons, List.mem_cons] at h
      rcases h with h | h
    

      · exact absurd h.symm hk
      · simp [dictGet, hk, ih h]

theorem dictRemove_of_not_mem {α : Type} (l : List (String × α)) (k : String)
    (h : k ∉ l.map Prod.fst) : dictRemove l k = l := by
  unfold dictRemove
  apply List.filter_eq_self.2
  intro p hp
  have : p.1 ∈ l.map Prod.fst := List.mem_map_of_mem Prod.fst hp
  have hne : p.1 ≠ k := by rintro rfl; exact h this
  simpa using hne

theorem dictRemove_append {α : Type} (l1 l2 : List (String × α)) (k : String) :
    dictRemove (l1 ++ l2) k = dictRemove l1 k ++ dictRemove l2 k := by
  simp [dictRemove, List.filter_append]

theorem foldl_dictInsert_fresh {α β : Type} (f : String × α → β) :
    ∀ (ps : List (String × α)) (l : List (String × β)),
    (ps.map Prod.fst).Nodup → (∀ p ∈ ps, p.1 ∉ l.map Prod.fst) →
    ps.foldl (fun acc p => dictInsert acc p.1 (f p)) l =
      l ++ ps.map (fun p => (p.1, f p))
  | [], l, _, _ => by simp
  | p :: ps, l, hnd, hfresh => by
    have h1 : dictInsert l p.1 (f p) = l ++ [(p.1, f p)] :=
      dictInsert_fresh l p.1 (f p) (hfresh p (by simp))
    have hnd' : (ps.map Prod.fst).Nodup := by
      simpa using hnd.of_cons
    have hfresh' : ∀ q ∈ ps, q.1 ∉ (l ++ [(p.1, f p)]).map Prod.fst := by
      intro q hq
      simp only [List.map_append, List.mem_append, List.map_cons, List.map_nil,
        List.mem_cons, List.mem_singleton, List.not_mem_nil, or_false]
      rintro (h | h)
      · exact hfresh q (by simp [hq]) h
      · have hcons : p.1 ∉ ps.map Prod.fst ∧ (ps.map Prod.fst).Nodup := by
          rw [List.map_cons] at hnd
          exact List.nodup_cons.1 hnd
        have hne : q.1 ≠ p.1 := fun he =>
          hcons.1 (he ▸ List.mem_map_of_mem Prod.fst hq)
        exact hne h
    simp only [List.foldl_cons, h1]
    rw [foldl_dictInsert_fresh f ps (l ++ [(p.1, f p)]) hnd' hfresh']
    simp

/- ---------------------------------------------------------------------
   Helper lemmas about tool registration
   --------------------------------------------------------------------- -/

theorem registerTool_keys (h : MCPHandler) (f : ToolFunc)
    (hk : h.tools.map Prod.fst = h.tool_implementations.map Prod.fst) :
    (registerTool h f).tools.map Prod.fst =
      (registerTool h f).tool_implementations.map Prod.fst := by
  simp only [registerTool, map_fst_dictInsert, hk]

theorem foldl_registerTool_keys :
    ∀ (fs : List ToolFunc) (h : MCPHandler),
    h.tools.map Prod.fst = h.tool_implementations.map Prod.fst →
    (fs.foldl registerTool h).tools.map Prod.fst =
      (fs.foldl registerTool h).tool_implementations.map Prod.fst
  | [], h, hk => hk
  | f :: fs, h, hk => by
    simp only [List.foldl_cons]
    exact foldl_registerTool_keys fs (registerTool h f) (registerTool_keys h f hk)

theorem mkMCPLambdaHandler_keys (nm ver : String) (fs : List ToolFunc) :
    (mkMCPLambdaHandler nm ver fs).tools.map Prod.fst =
      (mkMCPLambdaHandler nm ver fs).tool_implementations.map Prod.fst :=
  foldl_registerTool_keys fs _ rfl

theorem foldl_registerTool_tools :
    ∀ (fs : List ToolFunc) (h : MCPHandler),
    (fs.map (fun f => camelCaseName f.name)).Nodup →
    (∀ f ∈ fs, camelCaseName f.name ∉ h.tools.map Prod.fst) →
    (fs.foldl registerTool h).tools =
      h.tools ++ fs.map (fun f => (camelCaseName f.name, toolSchema f))
  | [], h, _, _ => by simp
  | f :: fs, h, hnd, hfresh => by
    have hkeys : camelCaseName f.name ∉ h.tools.map Prod.fst :=
      hfresh f (by simp)
    have h1 : (registerTool h f).tools = h.tools ++ [(camelCaseName f.name, toolSchema f)] := by
      simp only [registerTool]
      exact dictInsert_fresh _ _ _ hkeys
    have hnd' : (fs.map (fun f => camelCaseName f.name)).Nodup := by
      simpa using hnd.of_cons
    have hcons : camelCaseName f.name ∉ fs.map (fun f => camelCaseName f.name) ∧
        (fs.map (fun f => camelCaseName f.name)).Nodup := by
      rw [List.map_cons] at hnd
      exact List.nodup_cons.1 hnd
    have hfresh' : ∀ g ∈ fs,
        camelCaseName g.name ∉ (registerTool h f).tools.map Prod.fst := by
      intro g hg
      rw [h1]
      simp only [List.map_append, List.mem_append, List.map_cons, List.map_nil,
        List.mem_singleton, List.not_mem_nil, or_false, List.mem_cons]
      rintro (hmem | hmem)
      · exact hfresh g (by simp [hg]) hmem
      · exact hcons.1 (hmem ▸ List.mem_map_of_mem (fun f => camelCaseName f.name) hg)
    simp only [List.foldl_cons]
    rw [foldl_registerTool_tools fs (registerTool h f) hnd' hfresh', h1]
    simp

/-- `mkMCPLambdaHandler` with pairwise-distinct derived tool names registers
exactly one schema per function, in order. -/
theorem mkMCPLambdaHandler_tools (nm ver : String) (fs : List ToolFunc)
    (hnd : (fs.map (fun f => camelCaseName f.name)).Nodup) :
    (mkMCPLambdaHandler nm ver fs).tools =
      fs.map (fun f => (camelCaseName f.name, toolSchema f)) := by
  unfold mkMCPLambdaHandler
  rw [foldl_registerTool_tools fs _ hnd (by intro f _; simp)]
  simp

/-- String concatenation acts as list concatenation on the character data. -/
theorem strDataAppend (a b : String) : (a ++ b).data = a.data ++ b.data := rfl

/- ---------------------------------------------------------------------
   Claim C5
   --------------------------------------------------------------------- -/

/-- C5: M2M verification (`validate_m2m_token`) succeeds, returning the
session's stored owner id, exactly when the session exists, its status is
`active`, it carries a non-empty stored hash, and the digest of the
presented token equals that hash; in every other situation — in particular
for any token whose digest differs from the stored hash (such as a mutated
token whose digest changed), and for a non-active session even with the
correct token — it fails. -/
theorem validate_m2m_token_spec (hash : String → String)
    (table : String → Option AuthSessionR) (token sessionId userId : String) :
    validateM2MToken hash table token sessionId = some userId ↔
      ∃ session, table sessionId = some session ∧
        session.status = some "active" ∧
        ∃ storedHash, session.m2m_token_hash = some storedHash ∧
          storedHash ≠ "" ∧ hash token = storedHash ∧
          session.user_id = some userId := by
  unfold validateM2MToken
  cases htab : table sessionId with
  | none => simp
  | some session =>
    simp only [Option.some_inj]
    constructor
    · intro h
      refine ⟨session, rfl, ?_⟩
      by_cases hst : session.status = some "active"
      · rw [if_neg (by simp [hst])] at h
        cases hh : session.m2m_token_hash with
        | none => rw [hh] at h; simp at h
        | some storedHash =>
          rw [hh] at h
          dsimp only at h
          by_cases hz : storedHash = ""
          · rw [if_pos hz] at h; simp at h
          · rw [if_neg hz] at h
            by_cases hm : hash token = storedHash
            · rw [if_neg (by simp [hm])] at h
              exact ⟨hst, storedHash, rfl, hz, hm, h⟩
            · rw [if_pos hm] at h; simp at h
      · rw [if_pos hst] at h; simp at h
    · rintro ⟨session2, hs2, hst, storedHash, hh, hz, hm, hu⟩
      cases hs2
      rw [if_neg (by simp [hst]), hh]
      dsimp only
      rw [if_neg hz, if_neg (by simp [hm])]
      exact hu

/- ---------------------------------------------------------------------
   Claim C10
   --------------------------------------------------------------------- -/

/-- C10: every token produced by `TokenGenerator.generate_m2m_token` starts
with the literal prefix `mcp_m2m_` (the prefix constant followed by an
underscore), so the authorizer's classification step always routes it to
the M2M (agent) verification path, never to the tenant JWT path. -/
theorem m2m_token_classified_as_agent (hash : String → String)
    (rand sessionId userId : String) :
    pyStartswith (generateM2MToken hash rand sessionId userId) "mcp_m2m_" = true ∧
    classifyToken (generateM2MToken hash rand sessionId userId) = TokenClass.m2m := by
  have hdata : (generateM2MToken hash rand sessionId userId).data =
      "mcp_m2m_".data ++
        (rand ++ "_" ++
          pyTake M2M_TOKEN_DETERMINISTIC_LENGTH (hash (sessionId ++ ":" ++ userId))).data := by
    unfold generateM2MToken M2M_TOKEN_PREFIX
    simp only [strDataAppend, List.append_assoc]
    rfl
  have hpre : pyStartswith (generateM2MToken hash rand sessionId userId) "mcp_m2m_" = true := by
    unfold pyStartswith
    rw [hdata, List.isPrefixOf_iff_prefix]
    exact List.prefix_append _ _
  refine ⟨hpre, ?_⟩
  unfold classifyToken
  rw [hpre]
  rfl

/- ---------------------------------------------------------------------
   Claim C4
   --------------------------------------------------------------------- -/

/-- C4 (counterexample): the claim "every HTTP request whose JSON body
lacks an `id` field yields HTTP 202" is false as stated: a request whose
JSON body is `{}` (no `id`) but whose Content-Type is not
`application/json` is answered with HTTP 400 (a `-32700` error), because
`handle_request` validates the media type before the notification check;
and a JSON-array body (which also lacks an `id` field) gets HTTP 400 even
with the right Content-Type, because the notification check applies only to
JSON objects. -/
theorem notification_content_type_counterexample :
    (handleRequest (mkMCPLambdaHandler "srv" "1.0.0" [])
      { headers := [("Content-Type", "text/plain")]
        body := some (.obj [])
        path := "/server/s/mcp"
        httpMethod := "POST"
        authorizer := none }).statusCode = 400 ∧
    respErrorCode (handleRequest (mkMCPLambdaHandler "srv" "1.0.0" [])
      { headers := [("Content-Type", "text/plain")]
        body := some (.obj [])
        path := "/server/s/mcp"
        httpMethod := "POST"
        authorizer := none }) = some (-32700) ∧
    (handleRequest (mkMCPLambdaHandler "srv" "1.0.0" [])
      { headers := [("Content-Type", "application/json")]
        body := some (.arr [])
        path := "/server/s/mcp"
        httpMethod := "POST"
        authorizer := none }).statusCode = 400 := by
  exact ⟨rfl, rfl, rfl⟩

/-- C4 (amended): for every request whose Content-Type resolves to
`application/json` and whose body parses to a JSON object with no `id`
key, `handle_request` answers HTTP 202 with an empty body; the response is
a fixed constant, independent of the handler state (universally quantified
here), so no method dispatch or any other processing takes place. -/
theorem notification_yields_202 (h : MCPHandler) (ev : HttpEvent)
    (kvs : List (String × JsonVal))
    (hct : dictGet (ev.headers.map (fun p => (pyLower p.1, p.2))) "content-type" =
      some "application/json")
    (hbody : ev.body = some (.obj kvs))
    (hid : dictHas kvs "id" = false) :
    handleRequest h ev =
      { statusCode := 202, body := .text "", headers := mcpHeaders } := by
  simp only [handleRequest, hct, hbody, hid]
  simp

/-- C4 (witness): a concrete notification request hitting the 202 path. -/
theorem notification_yields_202_witness :
    handleRequest (mkMCPLambdaHandler "srv" "1.0.0" [])
      { headers := [("Content-Type", "application/json")]
        body := some (.obj [("jsonrpc", JsonVal.str "2.0"), ("method", JsonVal.str "ping")])
        path := "/server/s/mcp"
        httpMethod := "POST"
        authorizer := none } =
      { statusCode := 202, body := .text "", headers := mcpHeaders } :=
  notification_yields_202 (mkMCPLambdaHandler "srv" "1.0.0" [])
    { headers := [("Content-Type", "application/json")]
      body := some (.obj [("jsonrpc", JsonVal.str "2.0"), ("method", JsonVal.str "ping")])
      path := "/server/s/mcp"
      httpMethod := "POST"
      authorizer := none }
    [("jsonrpc", JsonVal.str "2.0"), ("method", JsonVal.str "ping")]
    (by rfl) rfl rfl

/- ---------------------------------------------------------------------
   Claim C1
   --------------------------------------------------------------------- -/

/-- C1 (counterexample): the persisted session record produced by
`create_server_data` contains the raw agent token in plaintext (field
`m2m_token`, distinct from the hash field), and the list-servers conversion
re-returns exactly that raw token — refuting "the persisted Session record
contains only the one-way token hash, and no later operation (in particular
list-servers) returns or re-persists the raw token" at a concrete input. -/
theorem create_server_plaintext_counterexample :
    ((createServerData (fun s => "#" ++ s) "R" "sid0" 0
        { name := "n", description := "d"
          tools := [{ name := "t", description := "td"
                      output := { output_type := "text"
                                  output_content := [("text", JsonVal.str "hi")] }
                      parameters := [] }] }
        "u" none).1.m2m_token = "mcp_m2m_R_#sid0:u") ∧
    ((createServerData (fun s => "#" ++ s) "R" "sid0" 0
        { name := "n", description := "d"
          tools := [{ name := "t", description := "td"
                      output := { output_type := "text"
                                  output_content := [("text", JsonVal.str "hi")] }
                      parameters := [] }] }
        "u" none).1.m2m_token ≠
      (createServerData (fun s => "#" ++ s) "R" "sid0" 0
        { name := "n", description := "d"
          tools := [{ name := "t", description := "td"
                      output := { output_type := "text"
                                  output_content := [("text", JsonVal.str "hi")] }
                      parameters := [] }] }
        "u" none).1.m2m_token_hash) ∧
    ((processServerListResponse
        [(createServerData (fun s => "#" ++ s) "R" "sid0" 0
            { name := "n", description := "d"
              tools := [{ name := "t", description := "td"
                          output := { output_type := "text"
                                      output_content := [("text", JsonVal.str "hi")] }
                          parameters := [] }] }
            "u" none).1] []).map (fun e => e.m2m_token) = ["mcp_m2m_R_#sid0:u"]) := by
  refine ⟨rfl, ?_, rfl⟩
  decide

/-- C1 (amended): on every create-server operation the raw agent token is
returned in the creation response (in both the `m2m_token` field and the
`authentication.token` field), but it is also written into the persisted
Session record in plaintext alongside its hash, and list-servers echoes
that stored raw token back for every listed session. -/
theorem create_server_token_storage (hash : String → String)
    (rand freshId : String) (now : Int) (request : MCPServerRequestR)
    (userId : String) (sessionId : Option String)
    (activeSessions : List String) :
    ((createServerData hash rand freshId now request userId sessionId).1.m2m_token =
      generateM2MToken hash rand
        (createServerData hash rand freshId now request userId sessionId).1.session_id
        userId) ∧
    ((createServerData hash rand freshId now request userId sessionId).1.m2m_token_hash =
      hash (createServerData hash rand freshId now request userId sessionId).1.m2m_token) ∧
    (jsonField
        (createServerResponseData
          (createServerData hash rand freshId now request userId sessionId).1 request)
        "m2m_token" =
      some (.str (createServerData hash rand freshId now request userId sessionId).1.m2m_token)) ∧
    ((jsonField
        (createServerResponseData
          (createServerData hash rand freshId now request userId sessionId).1 request)
        "authentication").bind (fun a => jsonField a "token") =
      some (.str (createServerData hash rand freshId now request userId sessionId).1.m2m_token)) ∧
    ((processServerListResponse
        [(createServerData hash rand freshId now request userId sessionId).1]
        activeSessions).map (fun e => e.m2m_token) =
      [(createServerData hash rand freshId now request userId sessionId).1.m2m_token]) := by
  refine ⟨?_, rfl, rfl, rfl, rfl⟩
  cases sessionId with
  | none => rfl
  | some s =>
    by_cases hs : s = ""
    · simp [createServerData, hs]
    · simp [createServerData, hs]

/- ---------------------------------------------------------------------
   Claim C2
   --------------------------------------------------------------------- -/

/-- C2 (counterexample): the engine cache is consulted before any
authorization-relevant check in `load_server`.  For a session id that is
cached but whose persisted record belongs to another user, the cached path
serves the MCP request (HTTP 200 for a ping) while the cache-miss path
applies the ownership check and returns 403 — so a cached engine does not
yield the same response as one reconstructed from the persisted Session,
and the ownership check is skipped exactly when the cache hits. -/
theorem engine_cache_divergence_counterexample :
    ((loadServer (fun s => s) "R" (fun _ _ => S3Result.exn "na")
        (fun _ _ => Except.error "na") "b"
        [("sid", mkMCPLambdaHandler "x" "1.0.0" [])]
        (fun s => if s = "sid" then
          some { session_id := "sid", user_id := "other", name := "n"
                 description := "d", tools := [], status := "active"
                 m2m_token := "t", m2m_token_hash := "h"
                 created_at := 0, updated_at := 0, expires_at := 0 }
          else none)
        "sid" "me"
        { headers := [("content-type", "application/json")]
          body := some (.obj [("jsonrpc", JsonVal.str "2.0"), ("id", JsonVal.num 1),
                              ("method", JsonVal.str "ping")])
          path := "/server/sid/mcp", httpMethod := "POST"
          authorizer := none }).statusCode = 200) ∧
    ((loadServer (fun s => s) "R" (fun _ _ => S3Result.exn "na")
        (fun _ _ => Except.error "na") "b"
        []
        (fun s => if s = "sid" then
          some { session_id := "sid", user_id := "other", name := "n"
                 description := "d", tools := [], status := "active"
                 m2m_token := "t", m2m_token_hash := "h"
                 created_at := 0, updated_at := 0, expires_at := 0 }
          else none)
        "sid" "me"
        { headers := [("content-type", "application/json")]
          body := some (.obj [("jsonrpc", JsonVal.str "2.0"), ("id", JsonVal.num 1),
                              ("method", JsonVal.str "ping")])
          path := "/server/sid/mcp", httpMethod := "POST"
          authorizer := none }).statusCode = 403) := by
  exact ⟨rfl, rfl⟩

/-- C2 (amended): the cache is transparent only on the happy path — when
the persisted Session exists, belongs to the requesting user, and
revalidates, serving the request from a cached engine equal to the one
reconstructed from that Session yields the same response as the cache-miss
path.  (Outside those conditions the paths diverge, because the cached path
never consults the persisted Session: see the counterexample.) -/
theorem engine_cache_transparent_when_owned (hash : String → String)
    (rand : String) (client : S3Client) (js : JsExec) (defaultBucket : String)
    (store : String → Option ServerDataR) (sessionId userId : String)
    (ev : HttpEvent) (sess : ServerDataR) (cached : MCPHandler)
    (hstore : store sessionId = some sess)
    (howner : sess.user_id = userId)
    (hrec : recreateHandlerFromSession hash rand sess userId sessionId = some cached) :
    loadServer hash rand client js defaultBucket [(sessionId, cached)] store
      sessionId userId ev =
    loadServer hash rand client js defaultBucket [] store sessionId userId ev := by
  unfold loadServer
  simp [dictGet, hstore, howner, hrec]

/-- C2 (witness): concrete instantiation of the transparency theorem. -/
theorem engine_cache_transparent_witness :
    loadServer (fun s => s) "R" (fun _ _ => S3Result.exn "na")
      (fun _ _ => Except.error "na") "b"
      [("s1", (createServerData (fun s => s) "R" "s1" 0
        { name := "n", description := "d"
          tools := [{ name := "t", description := "td"
                      output := { output_type := "text"
                                  output_content := [("text", JsonVal.str "hi")] }
                      parameters := [] }] } "me" (some "s1")).2)]
      (fun s => if s = "s1" then
        some { session_id := "s1", user_id := "me", name := "n"
               description := "d"
               tools := [{ name := "t", description := "td"
                           output := { output_type := "text"
                                       output_content := [("text", JsonVal.str "hi")] }
                           parameters := [] }]
               status := "active", m2m_token := "t", m2m_token_hash := "h"
               created_at := 0, updated_at := 0, expires_at := 0 }
        else none)
      "s1" "me"
      { headers := [("content-type", "application/json")]
        body := some (.obj [("jsonrpc", JsonVal.str "2.0"), ("id", JsonVal.num 1),
                            ("method", JsonVal.str "ping")])
        path := "/server/s1/mcp", httpMethod := "POST", authorizer := none } =
    loadServer (fun s => s) "R" (fun _ _ => S3Result.exn "na")
      (fun _ _ => Except.error "na") "b" []
      (fun s => if s = "s1" then
        some { session_id := "s1", user_id := "me", name := "n"
               description := "d"
               tools := [{ name := "t", description := "td"
                           output := { output_type := "text"
                                       output_content := [("text", JsonVal.str "hi")] }
                           parameters := [] }]
               status := "active", m2m_token := "t", m2m_token_hash := "h"
               created_at := 0, updated_at := 0, expires_at := 0 }
        else none)
      "s1" "me"
      { headers := [("content-type", "application/json")]
        body := some (.obj [("jsonrpc", JsonVal.str "2.0"), ("id", JsonVal.num 1),
                            ("method", JsonVal.str "ping")])
        path := "/server/s1/mcp", httpMethod := "POST", authorizer := none } :=
  engine_cache_transparent_when_owned (fun s => s) "R"
    (fun _ _ => S3Result.exn "na") (fun _ _ => Except.error "na") "b"
    (fun s => if s = "s1" then
      some { session_id := "s1", user_id := "me", name := "n"
             description := "d"
             tools := [{ name := "t", description := "td"
                         output := { output_type := "text"
                                     output_content := [("text", JsonVal.str "hi")] }
                         parameters := [] }]
             status := "active", m2m_token := "t", m2m_token_hash := "h"
             created_at := 0, updated_at := 0, expires_at := 0 }
      else none)
    "s1" "me"
    { headers := [("content-type", "application/json")]
      body := some (.obj [("jsonrpc", JsonVal.str "2.0"), ("id", JsonVal.num 1),
                          ("method", JsonVal.str "ping")])
      path := "/server/s1/mcp", httpMethod := "POST", authorizer := none }
    { session_id := "s1", user_id := "me", name := "n"
      description := "d"
      tools := [{ name := "t", description := "td"
                  output := { output_type := "text"
                              output_content := [("text", JsonVal.str "hi")] }
                  parameters := [] }]
      status := "active", m2m_token := "t", m2m_token_hash := "h"
      created_at := 0, updated_at := 0, expires_at := 0 }
    ((createServerData (fun s => s) "R" "s1" 0
      { name := "n", description := "d"
        tools := [{ name := "t", description := "td"
                    output := { output_type := "text"
                                output_content := [("text", JsonVal.str "hi")] }
                    parameters := [] }] } "me" (some "s1")).2)
    (by rfl) rfl (by rfl)

/- ---------------------------------------------------------------------
   Claim C6
   --------------------------------------------------------------------- -/

/-- C6: a request authenticated as an agent (M2M) credential bound to
session `A` whose path encodes a different session `B` is rejected by the
router with HTTP 403 and the session-mismatch message; the response is a
constant independent of every handler, cache and store parameter, so no MCP
handler runs. -/
theorem session_mismatch_forbidden
    (tenantCreate tenantList tenantDelete tenantUpload : RouteHandler)
    (hash : String → String) (rand : String) (client : S3Client) (js : JsExec)
    (defaultBucket : String) (activeHandlers : List (String × MCPHandler))
    (store : String → Option ServerDataR) (ev : HttpEvent) (u A B : String)
    (hauth : ev.authorizer =
      some { userId := some u, sessionId := some A, tokenType := some "m2m" })
    (hu : u ≠ "")
    (hpath : parsePath ev.path =
      { resource := some "server", extracted_session_id := some B
        protocolSeg := some "mcp", is_mcp := true })
    (hroute : routeFor "server" ev.httpMethod true = some RouteTag.mcpAccess)
    (hBA : B ≠ A) :
    appRouter tenantCreate tenantList tenantDelete tenantUpload hash rand
      client js defaultBucket activeHandlers store ev =
      errorResponse 403 TOKEN_SESSION_MISMATCH := by
  have hAB : A ≠ B := fun h => hBA h.symm
  simp only [appRouter, extractAuthContext, hauth, hpath, hroute, requireAuth,
    requireSessionMatch]
  simp [hu, hAB]

/-- C6 (witness): a concrete mismatching request. -/
theorem session_mismatch_forbidden_witness :
    appRouter (fun _ _ => errorResponse 500 "x") (fun _ _ => errorResponse 500 "x")
      (fun _ _ => errorResponse 500 "x") (fun _ _ => errorResponse 500 "x")
      (fun s => s) "R" (fun _ _ => S3Result.exn "na") (fun _ _ => Except.error "na")
      "b" [] (fun _ => none)
      { headers := [], body := none, path := "/server/B1/mcp"
        httpMethod := "POST"
        authorizer := some { userId := some "u1", sessionId := some "A1"
                             tokenType := some "m2m" } } =
      errorResponse 403 TOKEN_SESSION_MISMATCH :=
  session_mismatch_forbidden (fun _ _ => errorResponse 500 "x")
    (fun _ _ => errorResponse 500 "x") (fun _ _ => errorResponse 500 "x")
    (fun _ _ => errorResponse 500 "x") (fun s => s) "R"
    (fun _ _ => S3Result.exn "na") (fun _ _ => Except.error "na") "b" []
    (fun _ => none)
    { headers := [], body := none, path := "/server/B1/mcp"
      httpMethod := "POST"
      authorizer := some { userId := some "u1", sessionId := some "A1"
                           tokenType := some "m2m" } }
    "u1" "A1" "B1" rfl (by decide) (by rfl) rfl (by decide)

/- ---------------------------------------------------------------------
   Claim C9
   --------------------------------------------------------------------- -/

/-- C9: for a server built from tool definitions, a well-formed
`tools/call` request naming `n` yields the JSON-RPC error `-32601`
(MethodNotFound) exactly when `n` is not among the names served by
`tools/list`; and in that case the HTTP status is 404.  In particular a
name from the list never produces `-32601`. -/
theorem tools_call_not_found_iff (nm ver : String) (tds : List ToolDefinitionR)
    (ev : HttpEvent) (kvs l : List (String × JsonVal)) (n : String)
    (hct : dictGet (ev.headers.map (fun p => (pyLower p.1, p.2))) "content-type" =
      some "application/json")
    (hbody : ev.body = some (.obj kvs))
    (hid : dictHas kvs "id" = true)
    (hrpc : jsonrpcIs20 kvs = true)
    (hmethod : dictGet kvs "method" = some (.str "tools/call"))
    (hparams : dictGet kvs "params" = some (.obj l))
    (hname : dictGet l "name" = some (.str n)) :
    (respErrorCode (handleRequest (mkMCPLambdaHandler nm ver (createToolFunctions tds)) ev) =
        some (-32601) ↔
      n ∉ toolsListNames (mkMCPLambdaHandler nm ver (createToolFunctions tds))) ∧
    (n ∉ toolsListNames (mkMCPLambdaHandler nm ver (createToolFunctions tds)) →
      (handleRequest (mkMCPLambdaHandler nm ver (createToolFunctions tds)) ev).statusCode =
        404) := by
  have hkeys := mkMCPLambdaHandler_keys nm ver (createToolFunctions tds)
  have hlne : l ≠ [] := by
    intro he
    rw [he] at hname
    simp [dictGet] at hname
  have hhasm : dictHas kvs "method" = true := by simp [dictHas, hmethod]
  have hval : modelValidateRequest kvs =
      some { id := requestIdOf kvs, method := "tools/call", params := some l } := by
    unfold modelValidateRequest
    rw [hmethod, hparams]
  have hempty : l.isEmpty = false := by
    cases l with
    | nil => exact absurd rfl hlne
    | cons a as => rfl
  simp only [handleRequest, hct, hbody, hid, hrpc, hhasm, hval, hname,
    paramsTruthy, hempty]
  simp only [ne_eq, not_true_eq_false, if_false, Bool.not_true,
    Bool.false_eq_true]
  by_cases hmem : n ∈ toolsListNames (mkMCPLambdaHandler nm ver (createToolFunctions tds))
  · have hhas : dictHas (mkMCPLambdaHandler nm ver (createToolFunctions tds)).tools n = true :=
      (dictHas_iff _ _).2 hmem
    have himpl : (dictGet (mkMCPLambdaHandler nm ver (createToolFunctions tds)).tool_implementations n).isSome = true := by
      rw [dictGet_isSome_iff, ← hkeys]
      exact hmem
    obtain ⟨td, htd⟩ := Option.isSome_iff_exists.1 himpl
    simp only [hhas, htd, reduceIte]
    constructor
    · constructor
      · intro habs
        rcases hargs : (dictGet l "arguments").getD (.obj []) with _ | _ | _ | _ | _ | args
        all_goals rw [hargs] at habs
        all_goals simp [toolCallFound, respErrorCode, createSuccessResponse,
          createErrorResponse] at habs
      · intro habs
        exact absurd hmem habs
    · intro habs
      exact absurd hmem habs
  · have hhas : dictHas (mkMCPLambdaHandler nm ver (createToolFunctions tds)).tools n = false := by
      rw [← Bool.not_eq_true]
      rw [dictHas_iff]
      exact hmem
    simp only [hhas, Bool.false_eq_true, if_false, reduceIte]
    constructor
    · simp [respErrorCode, createErrorResponse, hmem]
    · intro _
      rfl

/-- C9 (witness): concrete instantiation — a one-tool server (`echo`) and a
well-formed `tools/call` request naming it. -/
theorem tools_call_not_found_witness :
    (respErrorCode (handleRequest
        (mkMCPLambdaHandler "srv" "1.0.0" (createToolFunctions
          [{ name := "echo", description := "td"
             output := { output_type := "text"
                         output_content := [("text", JsonVal.str "hi")] }
             parameters := [("msg", { type := "string", description := "m" })] }]))
        { headers := [("content-type", "application/json")]
          body := some (.obj [("jsonrpc", JsonVal.str "2.0"), ("id", JsonVal.num 1),
            ("method", JsonVal.str "tools/call"),
            ("params", .obj [("name", JsonVal.str "echo"),
                             ("arguments", .obj [("msg", JsonVal.str "x")])])])
          path := "/server/s/mcp", httpMethod := "POST", authorizer := none }) =
        some (-32601) ↔
      "echo" ∉ toolsListNames (mkMCPLambdaHandler "srv" "1.0.0" (createToolFunctions
          [{ name := "echo", description := "td"
             output := { output_type := "text"
                         output_content := [("text", JsonVal.str "hi")] }
             parameters := [("msg", { type := "string", description := "m" })] }]))) ∧
    ("echo" ∉ toolsListNames (mkMCPLambdaHandler "srv" "1.0.0" (createToolFunctions
          [{ name := "echo", description := "td"
             output := { output_type := "text"
                         output_content := [("text", JsonVal.str "hi")] }
             parameters := [("msg", { type := "string", description := "m" })] }])) →
      (handleRequest
        (mkMCPLambdaHandler "srv" "1.0.0" (createToolFunctions
          [{ name := "echo", description := "td"
             output := { output_type := "text"
                         output_content := [("text", JsonVal.str "hi")] }
             parameters := [("msg", { type := "string", description := "m" })] }]))
        { headers := [("content-type", "application/json")]
          body := some (.obj [("jsonrpc", JsonVal.str "2.0"), ("id", JsonVal.num 1),
            ("method", JsonVal.str "tools/call"),
            ("params", .obj [("name", JsonVal.str "echo"),
                             ("arguments", .obj [("msg", JsonVal.str "x")])])])
          path := "/server/s/mcp", httpMethod := "POST", authorizer := none }).statusCode =
        404) :=
  tools_call_not_found_iff "srv" "1.0.0"
    [{ name := "echo", description := "td"
       output := { output_type := "text"
                   output_content := [("text", JsonVal.str "hi")] }
       parameters := [("msg", { type := "string", description := "m" })] }]
    { headers := [("content-type", "application/json")]
      body := some (.obj [("jsonrpc", JsonVal.str "2.0"), ("id", JsonVal.num 1),
        ("method", JsonVal.str "tools/call"),
        ("params", .obj [("name", JsonVal.str "echo"),
                         ("arguments", .obj [("msg", JsonVal.str "x")])])])
      path := "/server/s/mcp", httpMethod := "POST", authorizer := none }
    [("jsonrpc", JsonVal.str "2.0"), ("id", JsonVal.num 1),
     ("method", JsonVal.str "tools/call"),
     ("params", .obj [("name", JsonVal.str "echo"),
                      ("arguments", .obj [("msg", JsonVal.str "x")])])]
    [("name", JsonVal.str "echo"), ("arguments", .obj [("msg", JsonVal.str "x")])]
    "echo" (by rfl) rfl rfl rfl rfl rfl rfl

/- ---------------------------------------------------------------------
   Claim C8
   --------------------------------------------------------------------- -/

theorem generateTypeAnnotations_eq (td : ToolDefinitionR)
    (hnd : (td.parameters.map Prod.fst).Nodup)
    (hret : "return" ∉ td.parameters.map Prod.fst) :
    generateTypeAnnotations td =
      td.parameters.map (fun p => (p.1, parameterTypeMapping p.2.type)) ++
        [("return", PyType.str)] := by
  unfold generateTypeAnnotations
  have hfold := foldl_dictInsert_fresh (fun p => parameterTypeMapping p.2.type)
    td.parameters [] hnd (by simp)
  simp only [List.nil_append] at hfold
  rw [hfold]
  apply dictInsert_fresh
  simpa [List.map_map, Function.comp] using hret

theorem hints_eq (td : ToolDefinitionR)
    (hnd : (td.parameters.map Prod.fst).Nodup)
    (hret : "return" ∉ td.parameters.map Prod.fst) :
    dictRemove (generateTypeAnnotations td) "return" =
      td.parameters.map (fun p => (p.1, parameterTypeMapping p.2.type)) := by
  rw [generateTypeAnnotations_eq td hnd hret, dictRemove_append]
  rw [dictRemove_of_not_mem _ _ (by simpa [List.map_map, Function.comp] using hret)]
  simp [dictRemove]

theorem toolSchema_required (td : ToolDefinitionR)
    (hnd : (td.parameters.map Prod.fst).Nodup)
    (hret : "return" ∉ td.parameters.map Prod.fst) :
    schemaRequired (toolSchema (createSingleToolFunction td)) =
      some (.arr (td.parameters.map (fun p => JsonVal.str p.1))) := by
  unfold toolSchema schemaRequired
  have hann : (createSingleToolFunction td).annotations = generateTypeAnnotations td := rfl
  rw [hann, hints_eq td hnd hret]
  simp [dictGet, List.map_map, Function.comp]

/-- C8 (counterexample): server creation accepts a request with two
identical tool definitions (validation imposes no name uniqueness), yet the
resulting registry serves a single `tools/list` entry, because the schema
registry is a name-keyed dict — refuting "exactly N schema entries" at
N = 2.  Separately, a tool declaring a parameter named `return` loses it
from the required list (the registration pops the `return` annotation),
refuting the required-set clause for that parameter name. -/
theorem duplicate_tool_names_counterexample :
    (validMCPServerRequest
      { name := "n", description := "d"
        tools := [{ name := "t", description := "td"
                    output := { output_type := "text"
                                output_content := [("text", JsonVal.str "hi")] }
                    parameters := [] },
                  { name := "t", description := "td"
                    output := { output_type := "text"
                                output_content := [("text", JsonVal.str "hi")] }
                    parameters := [] }] } = true) ∧
    ((mkMCPLambdaHandler "n" "1.0.0" (createToolFunctions
        [{ name := "t", description := "td"
           output := { output_type := "text"
                       output_content := [("text", JsonVal.str "hi")] }
           parameters := [] },
         { name := "t", description := "td"
           output := { output_type := "text"
                       output_content := [("text", JsonVal.str "hi")] }
           parameters := [] }])).tools.length = 1) ∧
    (schemaRequired (toolSchema (createSingleToolFunction
        { name := "t2", description := "td"
          output := { output_type := "text"
                      output_content := [("text", JsonVal.str "hi")] }
          parameters := [("return", { type := "string", description := "p" })] })) =
      some (.arr [])) := by
  exact ⟨rfl, rfl, rfl⟩

/-- C8 (amended): for a server created from tool definitions whose derived
(camelCased) names are pairwise distinct — duplicates otherwise overwrite
one another in the name-keyed registry — a well-formed `tools/list` request
returns exactly one schema entry per definition, in order, and each entry's
`required` list is exactly that definition's declared parameter names (the
parameter names of one tool being distinct and none being the reserved
annotation key `return`). -/
theorem tools_list_count_and_required (nm ver : String)
    (tds : List ToolDefinitionR) (ev : HttpEvent)
    (kvs : List (String × JsonVal))
    (hnd : (tds.map (fun td => camelCaseName td.name)).Nodup)
    (hp : ∀ td ∈ tds, (td.parameters.map Prod.fst).Nodup)
    (hret : ∀ td ∈ tds, "return" ∉ td.parameters.map Prod.fst)
    (hct : dictGet (ev.headers.map (fun p => (pyLower p.1, p.2))) "content-type" =
      some "application/json")
    (hbody : ev.body = some (.obj kvs))
    (hid : dictHas kvs "id" = true)
    (hrpc : jsonrpcIs20 kvs = true)
    (hmethod : dictGet kvs "method" = some (.str "tools/list"))
    (hparams : dictGet kvs "params" = none) :
    (handleRequest (mkMCPLambdaHandler nm ver (createToolFunctions tds)) ev =
      createSuccessResponse
        (.obj [("tools", .arr (tds.map (fun td =>
          toolSchema (createSingleToolFunction td))))])
        (requestIdOf kvs)) ∧
    ((tds.map (fun td => toolSchema (createSingleToolFunction td))).length =
      tds.length) ∧
    (∀ td ∈ tds, schemaRequired (toolSchema (createSingleToolFunction td)) =
      some (.arr (td.parameters.map (fun p => JsonVal.str p.1)))) := by
  have hfs : (createToolFunctions tds).map (fun f => camelCaseName f.name) =
      tds.map (fun td => camelCaseName td.name) := by
    simp [createToolFunctions, List.map_map, Function.comp, createSingleToolFunction]
  have htools := mkMCPLambdaHandler_tools nm ver (createToolFunctions tds)
    (by rw [hfs]; exact hnd)
  have hhasm : dictHas kvs "method" = true := by simp [dictHas, hmethod]
  have hval : modelValidateRequest kvs =
      some { id := requestIdOf kvs, method := "tools/list", params := none } := by
    unfold modelValidateRequest
    rw [hmethod, hparams]
  refine ⟨?_, by simp, fun td htd => toolSchema_required td (hp td htd) (hret td htd)⟩
  simp only [handleRequest, hct, hbody, hid, hrpc, hhasm, hval]
  simp only [ne_eq, not_true_eq_false, if_false, Bool.not_true, Bool.false_eq_true]
  rw [htools]
  simp only [createToolFunctions, List.map_map]
  rfl

/-- C8 (witness): concrete two-tool server and a well-formed `tools/list`
request. -/
theorem tools_list_count_and_required_witness :
    (handleRequest (mkMCPLambdaHandler "srv" "1.0.0" (createToolFunctions
        [ToolDefinitionR.mk "echo" "td" (OutputR.mk "text" [("text", JsonVal.str "hi")])
           [("msg", ParameterDefinitionR.mk "string" "m")],
         ToolDefinitionR.mk "add_nums" "td2" (OutputR.mk "text" [("text", JsonVal.str "ok")])
           [("a", ParameterDefinitionR.mk "number" "pa"),
            ("b", ParameterDefinitionR.mk "integer" "pb")]]))
      (HttpEvent.mk [("content-type", "application/json")]
        (some (.obj [("jsonrpc", JsonVal.str "2.0"), ("id", JsonVal.num 7),
          ("method", JsonVal.str "tools/list")]))
        "/server/s/mcp" "POST" none) =
      createSuccessResponse
        (.obj [("tools", .arr
          ([ToolDefinitionR.mk "echo" "td" (OutputR.mk "text" [("text", JsonVal.str "hi")])
              [("msg", ParameterDefinitionR.mk "string" "m")],
            ToolDefinitionR.mk "add_nums" "td2" (OutputR.mk "text" [("text", JsonVal.str "ok")])
              [("a", ParameterDefinitionR.mk "number" "pa"),
               ("b", ParameterDefinitionR.mk "integer" "pb")]].map
            (fun td => toolSchema (createSingleToolFunction td))))])
        (requestIdOf [("jsonrpc", JsonVal.str "2.0"), ("id", JsonVal.num 7),
          ("method", JsonVal.str "tools/list")])) ∧
    (([ToolDefinitionR.mk "echo" "td" (OutputR.mk "text" [("text", JsonVal.str "hi")])
         [("msg", ParameterDefinitionR.mk "string" "m")],
       ToolDefinitionR.mk "add_nums" "td2" (OutputR.mk "text" [("text", JsonVal.str "ok")])
         [("a", ParameterDefinitionR.mk "number" "pa"),
          ("b", ParameterDefinitionR.mk "integer" "pb")]].map
        (fun td => toolSchema (createSingleToolFunction td))).length = 2) ∧
    (∀ td ∈ [ToolDefinitionR.mk "echo" "td" (OutputR.mk "text" [("text", JsonVal.str "hi")])
         [("msg", ParameterDefinitionR.mk "string" "m")],
       ToolDefinitionR.mk "add_nums" "td2" (OutputR.mk "text" [("text", JsonVal.str "ok")])
         [("a", ParameterDefinitionR.mk "number" "pa"),
          ("b", ParameterDefinitionR.mk "integer" "pb")]],
      schemaRequired (toolSchema (createSingleToolFunction td)) =
        some (.arr (td.parameters.map (fun p => JsonVal.str p.1)))) :=
  tools_list_count_and_required "srv" "1.0.0"
    [ToolDefinitionR.mk "echo" "td" (OutputR.mk "text" [("text", JsonVal.str "hi")])
       [("msg", ParameterDefinitionR.mk "string" "m")],
     ToolDefinitionR.mk "add_nums" "td2" (OutputR.mk "text" [("text", JsonVal.str "ok")])
       [("a", ParameterDefinitionR.mk "number" "pa"),
        ("b", ParameterDefinitionR.mk "integer" "pb")]]
    (HttpEvent.mk [("content-type", "application/json")]
      (some (.obj [("jsonrpc", JsonVal.str "2.0"), ("id", JsonVal.num 7),
        ("method", JsonVal.str "tools/list")]))
      "/server/s/mcp" "POST" none)
    [("jsonrpc", JsonVal.str "2.0"), ("id", JsonVal.num 7),
     ("method", JsonVal.str "tools/list")]
    (by decide) (by decide) (by decide) (by rfl) rfl rfl rfl rfl rfl

/- ---------------------------------------------------------------------
   Claim C3
   --------------------------------------------------------------------- -/

/-- C3: a `tools/call` on an Image-output tool whose blob fetch fails (the
store reports any error `e`) degrades to a single text content block
`Error loading image: ...` inside a transport-level success envelope
(HTTP 200, JSON-RPC `result`, no `error`): the rendering failure never
aborts the call. -/
theorem image_fetch_failure_degrades_to_text
    (client : S3Client) (js : JsExec) (defaultBucket : String)
    (h : MCPHandler) (ev : HttpEvent) (kvs l args : List (String × JsonVal))
    (n : String) (td : ToolDefinitionR) (k b e : String)
    (hct : dictGet (ev.headers.map (fun p => (pyLower p.1, p.2))) "content-type" =
      some "application/json")
    (hbody : ev.body = some (.obj kvs))
    (hid : dictHas kvs "id" = true)
    (hrpc : jsonrpcIs20 kvs = true)
    (hmethod : dictGet kvs "method" = some (.str "tools/call"))
    (hparams : dictGet kvs "params" = some (.obj l))
    (hname : dictGet l "name" = some (.str n))
    (hargs : dictGet l "arguments" = some (.obj args))
    (hhastool : dictHas h.tools n = true)
    (himpl : dictGet h.tool_implementations n = some td)
    (htype : td.output.output_type = "image")
    (hkey : dictGet td.output.output_content "s3_key" = some (.str k))
    (hbucket : dictGet td.output.output_content "s3_bucket" = some (.str b))
    (hk : k ≠ "")
    (hfail : s3GetImage client defaultBucket k b = .error e) :
    handleRequestOH client js defaultBucket h ev =
      createSuccessResponse
        (.obj [("content", .arr [textContentJson ("Error loading image: " ++ e)])])
        (requestIdOf kvs) := by
  have hexec : executeToolLogic td = RawResult.image k b := by
    simp [executeToolLogic, contentStr, htype, hkey, hbucket]
  have hproc : processOutput client js defaultBucket (executeToolLogic td) args =
      [textContentJson ("Error loading image: " ++ e)] := by
    rw [hexec]
    simp [processOutput, handleImageOutput, hk, hfail]
  have hlne : l ≠ [] := by
    intro he
    rw [he] at hname
    simp [dictGet] at hname
  have hempty : l.isEmpty = false := by
    cases l with
    | nil => exact absurd rfl hlne
    | cons a as => rfl
  have hhasm : dictHas kvs "method" = true := by simp [dictHas, hmethod]
  have hval : modelValidateRequest kvs =
      some { id := requestIdOf kvs, method := "tools/call", params := some l } := by
    unfold modelValidateRequest
    rw [hmethod, hparams]
  simp only [handleRequestOH, hct, hbody, hid, hrpc, hhasm, hval, hname, hargs,
    paramsTruthy, hempty]
  simp only [ne_eq, not_true_eq_false, if_false, Bool.not_true, Bool.false_eq_true,
    Bool.or_self, reduceIte]
  simp only [hhastool, himpl, reduceIte, Option.getD_some]
  simp only [toolCallFoundOH, hproc]
  simp

/-- C3 (witness): a one-tool image server whose blob key is missing in the
store; the fetch yields the 404-style message and the call still succeeds
at the transport level. -/
theorem image_fetch_failure_witness :
    handleRequestOH (fun _ _ => S3Result.clientErr 404 "nf")
      (fun _ _ => Except.error "na") "buck"
      (mkMCPLambdaHandler "srv" "1.0.0" (createToolFunctions
        [ToolDefinitionR.mk "pic" "d"
          (OutputR.mk "image" [("s3_key", JsonVal.str "img1"), ("s3_bucket", JsonVal.str "")])
          []]))
      (HttpEvent.mk [("content-type", "application/json")]
        (some (.obj [("jsonrpc", JsonVal.str "2.0"), ("id", JsonVal.num 1),
          ("method", JsonVal.str "tools/call"),
          ("params", .obj [("name", JsonVal.str "pic"), ("arguments", .obj [])])]))
        "/server/s/mcp" "POST" none) =
      createSuccessResponse
        (.obj [("content", .arr [textContentJson
          ("Error loading image: Image not found: img1 in bucket " ++ squo ++ "buck" ++ squo)])])
        (requestIdOf [("jsonrpc", JsonVal.str "2.0"), ("id", JsonVal.num 1),
          ("method", JsonVal.str "tools/call"),
          ("params", .obj [("name", JsonVal.str "pic"), ("arguments", .obj [])])]) :=
  image_fetch_failure_degrades_to_text (fun _ _ => S3Result.clientErr 404 "nf")
    (fun _ _ => Except.error "na") "buck"
    (mkMCPLambdaHandler "srv" "1.0.0" (createToolFunctions
      [ToolDefinitionR.mk "pic" "d"
        (OutputR.mk "image" [("s3_key", JsonVal.str "img1"), ("s3_bucket", JsonVal.str "")])
        []]))
    (HttpEvent.mk [("content-type", "application/json")]
      (some (.obj [("jsonrpc", JsonVal.str "2.0"), ("id", JsonVal.num 1),
        ("method", JsonVal.str "tools/call"),
        ("params", .obj [("name", JsonVal.str "pic"), ("arguments", .obj [])])]))
      "/server/s/mcp" "POST" none)
    [("jsonrpc", JsonVal.str "2.0"), ("id", JsonVal.num 1),
     ("method", JsonVal.str "tools/call"),
     ("params", .obj [("name", JsonVal.str "pic"), ("arguments", .obj [])])]
    [("name", JsonVal.str "pic"), ("arguments", .obj [])]
    [] "pic"
    (ToolDefinitionR.mk "pic" "d"
      (OutputR.mk "image" [("s3_key", JsonVal.str "img1"), ("s3_bucket", JsonVal.str "")])
      [])
    "img1" ""
    ("Image not found: img1 in bucket " ++ squo ++ "buck" ++ squo)
    (by rfl) rfl rfl rfl rfl rfl rfl rfl rfl rfl rfl rfl rfl (by decide) rfl

/- ---------------------------------------------------------------------
   Claim C7: wildcard-matching lemmas
   --------------------------------------------------------------------- -/

theorem wildMatch_nil_iff (s : List Char) : wildMatch [] s = true ↔ s = [] := by
  simp [wildMatch, List.isEmpty_iff]

theorem wildMatch_star_iff (p s : List Char) :
    wildMatch ('*' :: p) s = true ↔
      ∃ x y, s = x ++ y ∧ wildMatch p y = true := by
  induction s with
  | nil =>
    constructor
    · intro hm
      refine ⟨[], [], rfl, ?_⟩
      simpa [wildMatch] using hm
    · rintro ⟨x, y, hxy, hy⟩
      obtain ⟨rfl, rfl⟩ : x = [] ∧ y = [] := by
        constructor
        · exact (List.append_eq_nil.1 hxy.symm).1
        · exact (List.append_eq_nil.1 hxy.symm).2
      simpa [wildMatch] using hy
  | cons d s2 ih =>
    have hunfold : wildMatch ('*' :: p) (d :: s2) =
        (wildMatch p (d :: s2) || wildMatch ('*' :: p) s2) := by
      simp [wildMatch]
    rw [hunfold]
    constructor
    · intro hm
      rcases Bool.or_eq_true_iff.1 hm with hm1 | hm2
      · exact ⟨[], d :: s2, rfl, hm1⟩
      · obtain ⟨x, y, rfl, hy⟩ := ih.1 hm2
        exact ⟨d :: x, y, rfl, hy⟩
    · rintro ⟨x, y, hxy, hy⟩
      cases x with
      | nil =>
        simp only [List.nil_append] at hxy
        subst hxy
        exact Bool.or_eq_true_iff.2 (Or.inl hy)
      | cons d2 x2 =>
        obtain ⟨rfl, hrest⟩ : d2 = d ∧ s2 = x2 ++ y := by
          rw [List.cons_append] at hxy
          exact ⟨(List.cons.injEq _ _ _ _ ▸ hxy).1.symm, (List.cons.injEq _ _ _ _ ▸ hxy).2⟩
        exact Bool.or_eq_true_iff.2 (Or.inr (ih.2 ⟨x2, y, hrest, hy⟩))

theorem wildMatch_cons_iff (c : Char) (p : List Char) (hc : c ≠ '*')
    (s : List Char) :
    wildMatch (c :: p) s = true ↔
      ∃ s2, s = c :: s2 ∧ wildMatch p s2 = true := by
  cases s with
  | nil => simp [wildMatch, hc]
  | cons d s2 =>
    have hunfold : wildMatch (c :: p) (d :: s2) = (c = d && wildMatch p s2) := by
      simp [wildMatch, hc]
    rw [hunfold]
    constructor
    · intro hm
      obtain ⟨hcd, hm2⟩ := Bool.and_eq_true_iff.1 hm
      exact ⟨s2, by rw [of_decide_eq_true hcd], hm2⟩
    · rintro ⟨s3, hs3, hm⟩
      obtain ⟨rfl, rfl⟩ : d = c ∧ s3 = s2 := by
        exact ⟨(List.cons.injEq _ _ _ _ ▸ hs3).1, ((List.cons.injEq _ _ _ _ ▸ hs3).2).symm⟩
      exact Bool.and_eq_true_iff.2 ⟨decide_eq_true rfl, hm⟩

theorem wildMatch_lit_append (lit : List Char) (hl : '*' ∉ lit)
    (p s : List Char) :
    wildMatch (lit ++ p) s = true ↔
      ∃ t, s = lit ++ t ∧ wildMatch p t = true := by
  induction lit generalizing s with
  | nil => simp
  | cons c cs ih =>
    have hc : c ≠ '*' := fun h => hl (by simp [h])
    have hcs : '*' ∉ cs := fun h => hl (by simp [h])
    rw [List.cons_append, wildMatch_cons_iff c (cs ++ p) hc s]
    constructor
    · rintro ⟨s2, rfl, hm⟩
      obtain ⟨t, rfl, ht⟩ := (ih hcs s2).1 hm
      exact ⟨t, rfl, ht⟩
    · rintro ⟨t, rfl, ht⟩
      exact ⟨cs ++ t, rfl, (ih hcs (cs ++ t)).2 ⟨t, rfl, ht⟩⟩

theorem wildMatch_no_star_iff (p : List Char) (hp : '*' ∉ p) (s : List Char) :
    wildMatch p s = true ↔ s = p := by
  have h := wildMatch_lit_append p hp [] s
  rw [List.append_nil] at h
  rw [h]
  constructor
  · rintro ⟨t, rfl, ht⟩
    rw [(wildMatch_nil_iff t).1 ht]
    simp
  · rintro rfl
    exact ⟨[], by simp, (wildMatch_nil_iff []).2 rfl⟩

theorem wildMatch_any_star (t : List Char) : wildMatch ['*'] t = true := by
  rw [wildMatch_star_iff]
  exact ⟨t, [], by simp, (wildMatch_nil_iff []).2 rfl⟩

theorem wildMatch_trailing_star_iff (lit : List Char) (hl : '*' ∉ lit)
    (s : List Char) :
    wildMatch (lit ++ ['*']) s = true ↔ ∃ t, s = lit ++ t := by
  rw [wildMatch_lit_append lit hl ['*'] s]
  constructor
  · rintro ⟨t, rfl, _⟩
    exact ⟨t, rfl⟩
  · rintro ⟨t, rfl⟩
    exact ⟨t, rfl, wildMatch_any_star t⟩

theorem m2m_pattern_match_iff (base s : List Char) (hb : '*' ∉ base) :
    wildMatch (base ++ "/*/servers/*/mcp".data) s = true ↔
      ∃ x y, s = base ++ ['/'] ++ x ++ "/servers/".data ++ y ++ "/mcp".data := by
  have hb2 : '*' ∉ base ++ ['/'] := by
    intro h
    rcases List.mem_append.1 h with h | h
    · exact hb h
    · simp at h
  have hsf : '*' ∉ "/servers/".data := by decide
  have hmcp : '*' ∉ "/mcp".data := by decide
  have hsplit : base ++ "/*/servers/*/mcp".data =
      (base ++ ['/']) ++ '*' :: ("/servers/".data ++ '*' :: "/mcp".data) := by
    have : "/*/servers/*/mcp".data =
        ['/'] ++ '*' :: ("/servers/".data ++ '*' :: "/mcp".data) := by decide
    rw [this, ← List.append_assoc]
  rw [hsplit]
  constructor
  · intro hm
    obtain ⟨t, rfl, hm1⟩ := (wildMatch_lit_append (base ++ ['/']) hb2 _ _).1 hm
    obtain ⟨x, y1, rfl, hm2⟩ := (wildMatch_star_iff _ _).1 hm1
    obtain ⟨u, rfl, hm3⟩ := (wildMatch_lit_append "/servers/".data hsf _ _).1 hm2
    obtain ⟨y, v, rfl, hm4⟩ := (wildMatch_star_iff _ _).1 hm3
    obtain rfl : v = "/mcp".data := (wildMatch_no_star_iff "/mcp".data hmcp v).1 hm4
    exact ⟨x, y, by simp [List.append_assoc]⟩
  · rintro ⟨x, y, rfl⟩
    apply (wildMatch_lit_append (base ++ ['/']) hb2 _ _).2
    refine ⟨x ++ "/servers/".data ++ y ++ "/mcp".data, by simp [List.append_assoc], ?_⟩
    apply (wildMatch_star_iff _ _).2
    refine ⟨x, "/servers/".data ++ y ++ "/mcp".data, by simp [List.append_assoc], ?_⟩
    apply (wildMatch_lit_append "/servers/".data hsf _ _).2
    refine ⟨y ++ "/mcp".data, by simp [List.append_assoc], ?_⟩
    apply (wildMatch_star_iff _ _).2
    exact ⟨y, "/mcp".data, rfl, (wildMatch_no_star_iff "/mcp".data hmcp _).2 rfl⟩

/-- C7 (amended): for the tool-invocation ARNs actually routed to the MCP
handler (methods GET and POST), the tenant policy's resource patterns match
none of them and the two pattern sets are disjoint on them; and the agent
policy's single pattern matches no server-management ARN.  (The tenant
pattern `{base}/DELETE/servers/*` does, however, match a DELETE-method ARN
of the tool-invocation shape — see the counterexample — which is what
restricts this statement to GET/POST.) -/
theorem policy_separation (marn m sid sid2 : String)
    (hstar : '*' ∉ (arnBase marn).data)
    (hm : m = "GET" ∨ m = "POST")
    (hsid2 : '/' ∉ sid2.data) :
    (∀ pat ∈ cognitoPolicyResources marn,
      wildMatchS pat (arnBase marn ++ "/" ++ m ++ "/servers/" ++ sid ++ "/mcp") = false) ∧
    (∀ mg ∈ [arnBase marn ++ "/GET/servers", arnBase marn ++ "/POST/servers",
             arnBase marn ++ "/DELETE/servers/" ++ sid2, arnBase marn ++ "/POST/images"],
      wildMatchS (m2mPolicyResource marn) mg = false) ∧
    ¬ ((cognitoPolicyResources marn).any
        (fun pat => wildMatchS pat (arnBase marn ++ "/" ++ m ++ "/servers/" ++ sid ++ "/mcp")) = true ∧
      wildMatchS (m2mPolicyResource marn)
        (arnBase marn ++ "/" ++ m ++ "/servers/" ++ sid ++ "/mcp") = true) := by
  have c0 : ("/".data).count '/' = 1 := by decide
  have cGET : ("GET".data).count '/' = 0 := by decide
  have cPOST : ("POST".data).count '/' = 0 := by decide
  have cSrv : ("/servers/".data).count '/' = 2 := by decide
  have cMcp : ("/mcp".data).count '/' = 1 := by decide
  have cP1 : ("/GET/servers".data).count '/' = 2 := by decide
  have cP2 : ("/POST/servers".data).count '/' = 2 := by decide
  have cP4 : ("/POST/images".data).count '/' = 2 := by decide
  have cP3 : ("/DELETE/servers/".data).count '/' = 3 := by decide
  have cSlash : (['/'] : List Char).count '/' = 1 := by decide
  have cSid2 : (sid2.data).count '/' = 0 := List.count_eq_zero.2 hsid2
  have hA : ∀ pat ∈ cognitoPolicyResources marn,
      wildMatchS pat (arnBase marn ++ "/" ++ m ++ "/servers/" ++ sid ++ "/mcp") = false := by
    intro pat hpat
    rw [Bool.eq_false_iff]
    intro hmatch
    simp only [cognitoPolicyResources, List.mem_cons, List.not_mem_nil,
      or_false] at hpat
    rcases hpat with rfl | rfl | rfl | rfl
    · unfold wildMatchS at hmatch
      have hns : '*' ∉ ((arnBase marn) ++ "/GET/servers").data := by
        rw [strDataAppend]
        intro h
        rcases List.mem_append.1 h with h | h
        · exact hstar h
        · revert h; decide
      rw [wildMatch_no_star_iff _ hns _] at hmatch
      have hc := congrArg (fun l => l.count '/') hmatch
      rcases hm with rfl | rfl <;>
        (simp only [strDataAppend, List.count_append] at hc;
         rw [c0, cSrv, cMcp, cP1] at hc;
         first
           | (rw [cGET] at hc; omega)
           | (rw [cPOST] at hc; omega))
    · unfold wildMatchS at hmatch
      have hns : '*' ∉ ((arnBase marn) ++ "/POST/servers").data := by
        rw [strDataAppend]
        intro h
        rcases List.mem_append.1 h with h | h
        · exact hstar h
        · revert h; decide
      rw [wildMatch_no_star_iff _ hns _] at hmatch
      have hc := congrArg (fun l => l.count '/') hmatch
      rcases hm with rfl | rfl <;>
        (simp only [strDataAppend, List.count_append] at hc;
         rw [c0, cSrv, cMcp, cP2] at hc;
         first
           | (rw [cGET] at hc; omega)
           | (rw [cPOST] at hc; omega))
    · unfold wildMatchS at hmatch
      have hsplitp : ((arnBase marn) ++ "/DELETE/servers/*").data =
          ((arnBase marn).data ++ "/DELETE/servers/".data) ++ ['*'] := by
        rw [strDataAppend]
        rw [show "/DELETE/servers/*".data = "/DELETE/servers/".data ++ ['*'] from rfl]
        rw [List.append_assoc]
      rw [hsplitp] at hmatch
      have hlitns : '*' ∉ (arnBase marn).data ++ "/DELETE/servers/".data := by
        intro h
        rcases List.mem_append.1 h with h | h
        · exact hstar h
        · revert h; decide
      obtain ⟨t, ht⟩ := (wildMatch_trailing_star_iff _ hlitns _).1 hmatch
      rw [List.append_assoc] at ht
      simp only [strDataAppend, List.append_assoc] at ht
      have hcancel := List.append_cancel_left ht
      rcases hm with rfl | rfl
      · rw [show "GET".data = ['G', 'E', 'T'] from rfl] at hcancel
        simp only [List.cons_append, List.nil_append] at hcancel
        have hpos := congrArg (fun l => l.get? 1) hcancel
        simp only [List.get?_cons_succ, List.get?_cons_zero] at hpos
        exact absurd hpos (by decide)
      · rw [show "POST".data = ['P', 'O', 'S', 'T'] from rfl] at hcancel
        simp only [List.cons_append, List.nil_append] at hcancel
        have hpos := congrArg (fun l => l.get? 1) hcancel
        simp only [List.get?_cons_succ, List.get?_cons_zero] at hpos
        exact absurd hpos (by decide)
    · unfold wildMatchS at hmatch
      have hns : '*' ∉ ((arnBase marn) ++ "/POST/images").data := by
        rw [strDataAppend]
        intro h
        rcases List.mem_append.1 h with h | h
        · exact hstar h
        · revert h; decide
      rw [wildMatch_no_star_iff _ hns _] at hmatch
      have hc := congrArg (fun l => l.count '/') hmatch
      rcases hm with rfl | rfl <;>
        (simp only [strDataAppend, List.count_append] at hc;
         rw [c0, cSrv, cMcp, cP4] at hc;
         first
           | (rw [cGET] at hc; omega)
           | (rw [cPOST] at hc; omega))
  have hB : ∀ mg ∈ [arnBase marn ++ "/GET/servers", arnBase marn ++ "/POST/servers",
      arnBase marn ++ "/DELETE/servers/" ++ sid2, arnBase marn ++ "/POST/images"],
      wildMatchS (m2mPolicyResource marn) mg = false := by
    intro mg hmg
    rw [Bool.eq_false_iff]
    intro hmatch
    unfold wildMatchS m2mPolicyResource at hmatch
    rw [strDataAppend] at hmatch
    obtain ⟨x, y, hxy⟩ := (m2m_pattern_match_iff _ _ hstar).1 hmatch
    simp only [List.mem_cons, List.not_mem_nil, or_false] at hmg
    rcases hmg with rfl | rfl | rfl | rfl
    · have hc := congrArg (fun l => l.count '/') hxy
      simp only [strDataAppend, List.count_append] at hc
      rw [cP1, cSrv, cMcp, cSlash] at hc
      omega
    · have hc := congrArg (fun l => l.count '/') hxy
      simp only [strDataAppend, List.count_append] at hc
      rw [cP2, cSrv, cMcp, cSlash] at hc
      omega
    · have hc := congrArg (fun l => l.count '/') hxy
      simp only [strDataAppend, List.count_append] at hc
      rw [cP3, cSid2, cSrv, cMcp, cSlash] at hc
      omega
    · have hc := congrArg (fun l => l.count '/') hxy
      simp only [strDataAppend, List.count_append] at hc
      rw [cP4, cSrv, cMcp, cSlash] at hc
      omega
  refine ⟨hA, hB, ?_⟩
  rintro ⟨hany, _⟩
  obtain ⟨pat, hpat, hmatch⟩ := List.any_eq_true.1 hany
  rw [hA pat hpat] at hmatch
  exact absurd hmatch (by decide)

/-- C7 (counterexample): the tenant policy generated for a DELETE request
contains the pattern `{base}/DELETE/servers/*`, and under IAM wildcard
matching that pattern matches the DELETE-method ARN of tool-invocation
shape `.../servers/{session_id}/mcp`; the agent pattern matches the same
ARN, so the two pattern sets are not disjoint on the tool-invocation path
as claimed. -/
theorem tenant_policy_matches_delete_mcp_counterexample :
    ((cognitoPolicyResources "api/prod/DELETE/servers/s1/mcp").any
      (fun pat => wildMatchS pat "api/prod/DELETE/servers/s1/mcp") = true) ∧
    (wildMatchS (m2mPolicyResource "api/prod/DELETE/servers/s1/mcp")
      "api/prod/DELETE/servers/s1/mcp" = true) := by
  constructor
  · apply List.any_eq_true.2
    refine ⟨"api/prod/DELETE/servers/*", by decide, ?_⟩
    unfold wildMatchS
    rw [show "api/prod/DELETE/servers/*".data =
      "api/prod/DELETE/servers/".data ++ ['*'] from rfl]
    exact (wildMatch_trailing_star_iff _ (by decide) _).2 ⟨"s1/mcp".data, by decide⟩
  · unfold wildMatchS m2mPolicyResource
    rw [strDataAppend]
    rw [show arnBase "api/prod/DELETE/servers/s1/mcp" = "api/prod" from rfl]
    exact (m2m_pattern_match_iff "api/prod".data _ (by decide)).2
      ⟨"DELETE".data, "s1".data, by decide⟩

/-- C7 (witness): concrete instantiation of the policy-separation theorem
for a POST tool-invocation ARN. -/
theorem policy_separation_witness :
    (∀ pat ∈ cognitoPolicyResources "api/prod/POST/servers/s9/mcp",
      wildMatchS pat (arnBase "api/prod/POST/servers/s9/mcp" ++ "/" ++ "POST" ++
        "/servers/" ++ "s9" ++ "/mcp") = false) ∧
    (∀ mg ∈ [arnBase "api/prod/POST/servers/s9/mcp" ++ "/GET/servers",
             arnBase "api/prod/POST/servers/s9/mcp" ++ "/POST/servers",
             arnBase "api/prod/POST/servers/s9/mcp" ++ "/DELETE/servers/" ++ "d7",
             arnBase "api/prod/POST/servers/s9/mcp" ++ "/POST/images"],
      wildMatchS (m2mPolicyResource "api/prod/POST/servers/s9/mcp") mg = false) ∧
    ¬ ((cognitoPolicyResources "api/prod/POST/servers/s9/mcp").any
        (fun pat => wildMatchS pat (arnBase "api/prod/POST/servers/s9/mcp" ++ "/" ++
          "POST" ++ "/servers/" ++ "s9" ++ "/mcp")) = true ∧
      wildMatchS (m2mPolicyResource "api/prod/POST/servers/s9/mcp")
        (arnBase "api/prod/POST/servers/s9/mcp" ++ "/" ++ "POST" ++ "/servers/" ++
          "s9" ++ "/mcp") = true) :=
  policy_separation "api/prod/POST/servers/s9/mcp" "POST" "s9" "d7"
    (by decide) (Or.inr rfl) (by decide)
